import Mathlib

/-!
Verification of the easydbg SQL-compilation and transaction-coordination core.

The JavaScript sources are shallowly embedded: strings are lists of
characters, JS objects become structures, thrown exceptions become
`Except` values carrying the error class name and message, and the
asynchronous control flow of the transaction coordinator is modelled by
explicit command logs.  Each definition carries a comment pointing to the
source file and lines it embeds.
-/

namespace EasyDbg

/-- JavaScript strings, modelled as lists of characters. -/
abbrev Str := List Char

/-- The single-quote character (used inside SQL templates). -/
def sq : Char := Char.ofNat 39

/-- The backtick character (MySQL identifier quoting). -/
def btick : Char := Char.ofNat 96

/-- JavaScript scalar binding values. -/
inductive JsVal where
  | s (v : Str)
  | b (v : Bool)
  | n (v : Int)
deriving DecidableEq, Repr

/-- A JavaScript error value: the class name (`err.name`), the message and
the chain of wrapped original errors (as name/message pairs). -/
structure JsError where
  name : Str
  message : Str
  causes : List (Str × Str)
deriving DecidableEq, Repr

/-- `Array.prototype.join(sep)` on a list of strings. -/
def joinSep (sep : Str) : List Str → Str
  | [] => []
  | [s] => s
  | s :: rest => s ++ sep ++ joinSep sep rest

/-- `String.prototype.toUpperCase` (ASCII). -/
def jsUpper (s : Str) : Str := s.map Char.toUpper

/-- `String.prototype.toLowerCase` (ASCII). -/
def jsToLower (s : Str) : Str := s.map Char.toLower

/-- Decimal rendering of a natural number, as interpolated by a JS
template literal. -/
def natStr (n : Nat) : Str := (Nat.repr n).toList

/-- Decimal rendering of an integer. -/
def intStr (k : Int) : Str := (toString k).toList

/-- Stringification of a JS property that may be `undefined`
(template-literal interpolation of `undefined` yields `"undefined"`). -/
def jsStr : Option Str → Str
  | some s => s
  | none => "undefined".toList

/-- JS number truthiness for the `limit`/`offset` slots: `null` and `0`
are falsy. -/
def optTruthy : Option Nat → Bool
  | some n => !(n == 0)
  | none => false

/-- Whitespace test used by `String.prototype.trim`. -/
def isWs (c : Char) : Bool := c == ' ' || c == '\n' || c == '\t' || c == '\r'

/-- `String.prototype.trim`. -/
def jsTrim (s : Str) : Str :=
  ((s.dropWhile isWs).reverse.dropWhile isWs).reverse

/-- Boolean substring test (`String.prototype.includes`): `isPrefixOfB n h`
is true when `n` is a prefix of `h`. -/
def isPrefixOfB : Str → Str → Bool
  | [], _ => true
  | _ :: _, [] => false
  | a :: as, b :: bs => a == b && isPrefixOfB as bs

/-- `hay.includes(needle)`. -/
def containsSub (hay needle : Str) : Bool :=
  match hay with
  | [] => needle.isEmpty
  | _ :: t => isPrefixOfB needle hay || containsSub t needle

/-- `String.prototype.split(sep)` for a single-character separator. -/
def splitOnChar (sep : Char) : Str → List Str
  | [] => [[]]
  | c :: rest =>
    let r := splitOnChar sep rest
    if c = sep then [] :: r
    else
      match r with
      | [] => [[c]]
      | h :: t => (c :: h) :: t

/-- `BaseGrammar.wrap` (src/lib/query/grammars/base-grammar.js:19-25):
`*` is returned untouched, otherwise every existing double quote is
removed and the value is wrapped in double quotes. -/
def baseWrap (value : Str) : Str :=
  if value = "*".toList then value
  else '"' :: (value.filter (fun c => c != '"')) ++ ['"']

/-- `MssqlGrammar.wrap`, the variant defined alongside the base grammar
(src/lib/query/grammars/base-grammar.js:388-394): `*` untouched,
existing square brackets removed, result wrapped in `[` and `]`. -/
def mssqlAWrap (value : Str) : Str :=
  if value = "*".toList then value
  else '[' :: (value.filter (fun c => c != '[' && c != ']')) ++ [']']

/-- `MySqlGrammar.wrap` (src/lib/query/grammars/mysql-grammar.js:32-38):
split on `.`, wrap each part in backticks, re-join with `.`. -/
def mysqlWrap (value : Str) : Str :=
  if value = "*".toList then value
  else joinSep ['.'] ((splitOnChar '.' value).map (fun part => btick :: part ++ [btick]))

/-- `MssqlGrammar.wrap` of the standalone file
(src/lib/query/grammars/mssql-grammar.js:33-38): split on `.`, wrap each
part in square brackets, re-join with `.` (no stripping). -/
def mssqlBWrap (value : Str) : Str :=
  if value = "*".toList then value
  else joinSep ['.'] ((splitOnChar '.' value).map (fun part => '[' :: part ++ [']']))

theorem baseWrap_idem (x : Str) : baseWrap (baseWrap x) = baseWrap x := by
  unfold baseWrap
  by_cases h : x = "*".toList
  · simp [h]
  · simp only [if_neg h]
    have hne : ('"' :: (x.filter (fun c => c != '"')) ++ ['"']) ≠ "*".toList := by
      intro hEq
      have : '"' = '*' := by
        have := congrArg (fun l => l.head?) hEq
        simp at this
      simp at this
    simp only [if_neg hne]
    simp [List.filter_append, List.filter_filter]

theorem mssqlAWrap_idem (x : Str) : mssqlAWrap (mssqlAWrap x) = mssqlAWrap x := by
  unfold mssqlAWrap
  by_cases h : x = "*".toList
  · simp [h]
  · simp only [if_neg h]
    have hne : ('[' :: (x.filter (fun c => c != '[' && c != ']')) ++ [']']) ≠ "*".toList := by
      intro hEq
      have : '[' = '*' := by
        have := congrArg (fun l => l.head?) hEq
        simp at this
      simp at this
    simp only [if_neg hne]
    simp [List.filter_append, List.filter_filter]

/-- C10: for the base (double-quote) query-grammar `wrap` and the MSSQL
(square-bracket) variant defined alongside it, wrapping is idempotent —
existing quoting characters are stripped before re-wrapping, so
`wrap (wrap x) = wrap x` — and `*` is left unquoted. -/
theorem c10_wrap_idempotent :
    (∀ x : Str, baseWrap (baseWrap x) = baseWrap x) ∧
    baseWrap ("*".toList) = "*".toList ∧
    (∀ x : Str, mssqlAWrap (mssqlAWrap x) = mssqlAWrap x) ∧
    mssqlAWrap ("*".toList) = "*".toList :=
  ⟨baseWrap_idem, by simp [baseWrap], mssqlAWrap_idem, by simp [mssqlAWrap]⟩

/-- A `where` entry as pushed by `QueryBuilder.where`
(src/lib/query/builder.js:74-91): `{column, operator, value, type}`.
`subSql` carries the `sql` property of `type: 'sub'` entries and
`boolean` the `boolean` property, both absent (`none`/empty) on entries
the builder creates. -/
structure WherePred where
  column : Str
  operator : Str
  value : JsVal
  type_ : Str
  subSql : Str
  boolean : Option Str
deriving DecidableEq, Repr

/-- An `orderBy` entry as pushed by `QueryBuilder.orderBy`
(src/lib/query/builder.js:99-102): `{column, direction}` with the
direction lower-cased. -/
structure OrderSpec where
  column : Str
  direction : Str
deriving DecidableEq, Repr

/-- The `_statements` record of the query builder
(src/lib/query/builder.js:25-33). -/
structure Statements where
  select : List Str
  fromTable : Str
  whereList : List WherePred
  orderBy : List OrderSpec
  limit : Option Nat
  offset : Option Nat
  returning : Option (List Str)
deriving DecidableEq, Repr

/-- `BaseGrammar.compileFrom` (base-grammar.js:41-43). -/
def compileFrom (wrap : Str → Str) (tableName : Str) : Str :=
  "FROM ".toList ++ wrap tableName

/-- One predicate of the WHERE clause (base-grammar.js:53-58): a
`type: 'sub'` entry compiles to its parenthesised raw SQL, any other
entry to `wrap(column) operator ?`. -/
def whereFragment (wrap : Str → Str) (w : WherePred) : Str :=
  if w.type_ = "sub".toList then '(' :: w.subSql ++ [')']
  else wrap w.column ++ ' ' :: w.operator ++ " ?".toList

/-- `BaseGrammar.compileWheres` (base-grammar.js:50-61).  The fragments
are joined with `` ` ${wheres[0].boolean} ` ``; entries pushed by the
current builder carry no `boolean` property, so the interpolated
separator word is `undefined`. -/
def compileWheres (wrap : Str → Str) (ws : List WherePred) : Str :=
  match ws with
  | [] => []
  | w0 :: _ =>
    "WHERE ".toList ++
      joinSep (' ' :: jsStr w0.boolean ++ [' ']) (ws.map (whereFragment wrap))

/-- Modelled from the spec: `compileSelectCore` is called by the
Postgres, MySQL, MSSQL and Oracle query-grammar variants
(e.g. postgres-grammar.js:35, mysql-grammar.js:51) but the base-grammar
revision defining it is not in the repository sources.  Spec §4.1 fixes
the clause order starting with the select list and §8 scenario 6 shows
its output `SELECT "id", "name"`: the wrapped columns joined by a comma,
prefixed with `SELECT `. -/
def compileSelectCore (wrap : Str → Str) (cols : List Str) : Str :=
  "SELECT ".toList ++ joinSep (", ".toList) (cols.map wrap)

/-- Modelled from the spec: `compileOrderBy` is called by the same
grammar variants (e.g. postgres-grammar.js:40) and is likewise missing
from the sources.  Spec §3 gives `orderSpecs` as `{column, direction}`
pairs; mirroring the in-repo `BaseGrammar.compileOrders`
(base-grammar.js:106-109), an empty list contributes nothing, otherwise
`ORDER BY wrap(column) DIRECTION` entries joined by a comma. -/
def compileOrderBy (wrap : Str → Str) (orders : List OrderSpec) : Str :=
  if orders = [] then []
  else
    "ORDER BY ".toList ++
      joinSep (", ".toList)
        (orders.map (fun o => wrap o.column ++ ' ' :: jsUpper o.direction))

/-- `parts.filter(part => part).join(' ')`, the part concatenation used
by the Postgres/MySQL/MSSQL/Oracle `compileSelect` variants
(postgres-grammar.js:159-161, mysql-grammar.js:61). -/
def concatParts (parts : List Str) : Str :=
  joinSep [' '] (parts.filter (fun p => !p.isEmpty))

/-- `PostgresGrammar.compileLimit` (postgres-grammar.js:54-59). -/
def pgLimit : Option Nat → Str
  | some n => if n = 0 then [] else "limit ".toList ++ natStr n
  | none => []

/-- `PostgresGrammar.compileOffset` (postgres-grammar.js:67-72). -/
def pgOffset : Option Nat → Str
  | some n => if n = 0 then [] else "offset ".toList ++ natStr n
  | none => []

/-- `PostgresGrammar.compileSelect` (postgres-grammar.js:31-46): select
core, FROM, WHERE, ORDER BY, limit, offset, with empty parts filtered
out, joined by single spaces and trimmed. -/
def pgCompileSelect (st : Statements) : Str :=
  jsTrim (concatParts
    [compileSelectCore baseWrap st.select,
     compileFrom baseWrap st.fromTable,
     compileWheres baseWrap st.whereList,
     compileOrderBy baseWrap st.orderBy,
     pgLimit st.limit,
     pgOffset st.offset])

/-- `MySqlGrammar.compileLimit` (mysql-grammar.js:70-75). -/
def mysqlLimit : Option Nat → Str
  | some n => if n = 0 then [] else "limit ".toList ++ natStr n
  | none => []

/-- `MySqlGrammar.compileOffset` (mysql-grammar.js:83-88). -/
def mysqlOffset : Option Nat → Str
  | some n => if n = 0 then [] else "offset ".toList ++ natStr n
  | none => []

/-- `MySqlGrammar.compileSelect` (mysql-grammar.js:47-62): select core,
FROM, WHERE, ORDER BY, limit, offset (limit before offset), empty parts
filtered, joined by single spaces. -/
def mysqlCompileSelect (st : Statements) : Str :=
  concatParts
    [compileSelectCore mysqlWrap st.select,
     compileFrom mysqlWrap st.fromTable,
     compileWheres mysqlWrap st.whereList,
     compileOrderBy mysqlWrap st.orderBy,
     mysqlLimit st.limit,
     mysqlOffset st.offset]

/-- `QueryBuilder._getBindingsFor` (builder.js:197-204): update-data
values (object key order) for updates, then the `value` of each where
entry.  The statement model records no having clause, so no having
values exist. -/
def getBindingsFor (method : Str) (updateData : List (Str × JsVal)) (st : Statements) :
    List JsVal :=
  (if method = "update".toList then updateData.map Prod.snd else []) ++
    st.whereList.map WherePred.value

/-- The `sql.replace(/\?/g, ...)` placeholder rewrite shared by
`preparePostgres`/`prepareOracle`/`formatQuery`
(parameter-handler.js:100-124 and 13-47): each successive `?` is
replaced by `marker k` for `k = 1, 2, …`. -/
def replaceQ (marker : Nat → Str) : Nat → Str → Str
  | _, [] => []
  | k, c :: rest =>
    if c = '?' then marker (k + 1) ++ replaceQ marker (k + 1) rest
    else c :: replaceQ marker k rest

/-- Postgres marker `$k` (parameter-handler.js:100-107). -/
def pgMarker (k : Nat) : Str := '$' :: natStr k

/-- Oracle marker `:k` (parameter-handler.js:117-124). -/
def oraMarker (k : Nat) : Str := ':' :: natStr k

/-- MSSQL marker of `formatQuery` (parameter-handler.js:27-34):
`@param${index++}` with the index starting at 0, so the k-th `?`
(1-based) becomes `@param(k-1)`. -/
def msParamMarker (k : Nat) : Str := "@param".toList ++ natStr (k - 1)

/-- `prepare` (parameter-handler.js:76-90), the rewrite invoked by
`EasyDBGClient._executeQuery`: Postgres and Oracle are rewritten, MySQL,
MSSQL and unknown clients are returned unchanged. -/
def prepareFn (clientType : Str) (sql : Str) (bindings : List JsVal) :
    Str × List JsVal :=
  if jsToLower clientType = "postgres".toList then (replaceQ pgMarker 0 sql, bindings)
  else if jsToLower clientType = "oracle".toList then (replaceQ oraMarker 0 sql, bindings)
  else (sql, bindings)

/-- `formatQuery` (parameter-handler.js:13-47), the other rewrite in the
same module: Postgres `$k`, MySQL unchanged, MSSQL `@param(k-1)`,
Oracle `:k`, unknown unchanged. -/
def formatQuery (clientType : Str) (sql : Str) (params : List JsVal) :
    Str × List JsVal :=
  if clientType = "postgres".toList then (replaceQ pgMarker 0 sql, params)
  else if clientType = "mysql".toList then (sql, params)
  else if clientType = "mssql".toList then (replaceQ msParamMarker 0 sql, params)
  else if clientType = "oracle".toList then (replaceQ oraMarker 0 sql, params)
  else (sql, params)

/-- The statement model of spec §8 scenario 6:
`{select:['id','name'], from:'users', where:[{column:'id',operator:'=',value:7}]}`. -/
def c1Statements : Statements :=
  ⟨["id".toList, "name".toList], "users".toList,
   [⟨"id".toList, "=".toList, JsVal.n 7, "and".toList, [], none⟩],
   [], none, none, none⟩

/-- C1: compiling the scenario-6 statement model through the Postgres
grammar and `prepare` yields `SELECT "id", "name" FROM "users" WHERE
"id" = $1` with bindings `[7]`, and through the MySQL grammar
`` SELECT `id`, `name` FROM `users` WHERE `id` = ? `` with bindings
`[7]`.  (The select-core and order-by helpers of these grammar variants
are modelled from the spec; see `compileSelectCore`/`compileOrderBy`.) -/
theorem c1_concrete_scenario :
    prepareFn ("postgres".toList) (pgCompileSelect c1Statements)
        (getBindingsFor ("select".toList) [] c1Statements)
      = ("SELECT \"id\", \"name\" FROM \"users\" WHERE \"id\" = $1".toList,
         [JsVal.n 7]) ∧
    prepareFn ("mysql".toList) (mysqlCompileSelect c1Statements)
        (getBindingsFor ("select".toList) [] c1Statements)
      = ("SELECT `id`, `name` FROM `users` WHERE `id` = ?".toList,
         [JsVal.n 7]) := by
  decide

/-- Segments interleaved with the dialect markers `marker (k+1)`,
`marker (k+2)`, …: the canonical decomposition of a rewritten SQL
string.  `withMarkers m 0 [s0, s1, …, sN] = s0 ++ m 1 ++ s1 ++ … ++ m N ++ sN`. -/
def withMarkers (marker : Nat → Str) : Nat → List Str → Str
  | _, [] => []
  | _, [s] => s
  | k, s :: rest => s ++ marker (k + 1) ++ withMarkers marker (k + 1) rest

theorem replaceQ_append_free (m : Nat → Str) (k : Nat) (s t : Str) (h : '?' ∉ s) :
    replaceQ m k (s ++ t) = s ++ replaceQ m k t := by
  induction s with
  | nil => simp
  | cons c cs ih =>
    rw [List.mem_cons] at h
    push_neg at h
    have hc : c ≠ '?' := fun hh => h.1 hh.symm
    simp [replaceQ, hc, ih h.2]

theorem replaceQ_free (m : Nat → Str) (k : Nat) (s : Str) (h : '?' ∉ s) :
    replaceQ m k s = s := by
  have := replaceQ_append_free m k s [] h
  simpa [replaceQ] using this

theorem replaceQ_joinSep (m : Nat → Str) (segs : List Str) :
    ∀ k : Nat, (∀ s ∈ segs, '?' ∉ s) →
      replaceQ m k (joinSep ['?'] segs) = withMarkers m k segs := by
  induction segs with
  | nil => intro k _; simp [joinSep, withMarkers, replaceQ]
  | cons s rest ih =>
    intro k hfree
    match rest with
    | [] =>
      simp only [joinSep, withMarkers]
      exact replaceQ_free m k s (hfree s (by simp))
    | s2 :: t =>
      have hs : '?' ∉ s := hfree s (by simp)
      have hrest : ∀ x ∈ s2 :: t, '?' ∉ x := fun x hx => hfree x (by simp [hx])
      calc replaceQ m k (joinSep ['?'] (s :: s2 :: t))
          = replaceQ m k (s ++ ('?' :: joinSep ['?'] (s2 :: t))) := by
            simp [joinSep]
        _ = s ++ replaceQ m k ('?' :: joinSep ['?'] (s2 :: t)) :=
            replaceQ_append_free m k s _ hs
        _ = s ++ (m (k + 1) ++ replaceQ m (k + 1) (joinSep ['?'] (s2 :: t))) := by
            simp [replaceQ]
        _ = s ++ (m (k + 1) ++ withMarkers m (k + 1) (s2 :: t)) := by
            rw [ih (k + 1) hrest]
        _ = withMarkers m k (s :: s2 :: t) := by
            simp [withMarkers]

theorem withMarkers_qmark (segs : List Str) :
    ∀ k : Nat, withMarkers (fun _ => ['?']) k segs = joinSep ['?'] segs := by
  induction segs with
  | nil => intro k; simp [joinSep, withMarkers]
  | cons s rest ih =>
    intro k
    match rest with
    | [] => simp [joinSep, withMarkers]
    | s2 :: t =>
      simp [withMarkers, joinSep, ih (k + 1)]

/-- The marker family actually produced by `prepare` for each dialect:
Postgres `$k`, Oracle `:k`, every other client (including MySQL and
MSSQL) keeps the canonical `?`. -/
def prepMarkerOf (ct : Str) : Nat → Str :=
  if ct = "postgres".toList then pgMarker
  else if ct = "oracle".toList then oraMarker
  else fun _ => ['?']

/-- The marker family produced by `formatQuery` for each dialect:
Postgres `$k`, MSSQL `@param(k-1)`, Oracle `:k`, MySQL keeps `?`. -/
def fqMarkerOf (ct : Str) : Nat → Str :=
  if ct = "postgres".toList then pgMarker
  else if ct = "mssql".toList then msParamMarker
  else if ct = "oracle".toList then oraMarker
  else fun _ => ['?']

theorem prepareFn_postgres (sql : Str) (b : List JsVal) :
    prepareFn ("postgres".toList) sql b = (replaceQ pgMarker 0 sql, b) := by
  unfold prepareFn
  rw [show jsToLower ("postgres".toList) = "postgres".toList from by decide]
  rw [if_pos rfl]

theorem prepareFn_mysql (sql : Str) (b : List JsVal) :
    prepareFn ("mysql".toList) sql b = (sql, b) := by
  unfold prepareFn
  rw [show jsToLower ("mysql".toList) = "mysql".toList from by decide]
  rw [if_neg (by decide), if_neg (by decide)]

theorem prepareFn_mssql (sql : Str) (b : List JsVal) :
    prepareFn ("mssql".toList) sql b = (sql, b) := by
  unfold prepareFn
  rw [show jsToLower ("mssql".toList) = "mssql".toList from by decide]
  rw [if_neg (by decide), if_neg (by decide)]

theorem prepareFn_oracle (sql : Str) (b : List JsVal) :
    prepareFn ("oracle".toList) sql b = (replaceQ oraMarker 0 sql, b) := by
  unfold prepareFn
  rw [show jsToLower ("oracle".toList) = "oracle".toList from by decide]
  rw [if_neg (by decide), if_pos rfl]

theorem formatQuery_postgres (sql : Str) (b : List JsVal) :
    formatQuery ("postgres".toList) sql b = (replaceQ pgMarker 0 sql, b) := by
  unfold formatQuery
  rw [if_pos rfl]

theorem formatQuery_mysql (sql : Str) (b : List JsVal) :
    formatQuery ("mysql".toList) sql b = (sql, b) := by
  unfold formatQuery
  rw [if_neg (by decide), if_pos rfl]

theorem formatQuery_mssql (sql : Str) (b : List JsVal) :
    formatQuery ("mssql".toList) sql b = (replaceQ msParamMarker 0 sql, b) := by
  unfold formatQuery
  rw [if_neg (by decide), if_neg (by decide), if_pos rfl]

theorem formatQuery_oracle (sql : Str) (b : List JsVal) :
    formatQuery ("oracle".toList) sql b = (replaceQ oraMarker 0 sql, b) := by
  unfold formatQuery
  rw [if_neg (by decide), if_neg (by decide), if_neg (by decide), if_pos rfl]

theorem prepMarkerOf_postgres : prepMarkerOf ("postgres".toList) = pgMarker := by
  unfold prepMarkerOf; rw [if_pos rfl]

theorem prepMarkerOf_mysql : prepMarkerOf ("mysql".toList) = fun _ => ['?'] := by
  unfold prepMarkerOf; rw [if_neg (by decide), if_neg (by decide)]

theorem prepMarkerOf_mssql : prepMarkerOf ("mssql".toList) = fun _ => ['?'] := by
  unfold prepMarkerOf; rw [if_neg (by decide), if_neg (by decide)]

theorem prepMarkerOf_oracle : prepMarkerOf ("oracle".toList) = oraMarker := by
  unfold prepMarkerOf; rw [if_neg (by decide), if_pos rfl]

theorem fqMarkerOf_postgres : fqMarkerOf ("postgres".toList) = pgMarker := by
  unfold fqMarkerOf; rw [if_pos rfl]

theorem fqMarkerOf_mysql : fqMarkerOf ("mysql".toList) = fun _ => ['?'] := by
  unfold fqMarkerOf
  rw [if_neg (by decide), if_neg (by decide), if_neg (by decide)]

theorem fqMarkerOf_mssql : fqMarkerOf ("mssql".toList) = msParamMarker := by
  unfold fqMarkerOf; rw [if_neg (by decide), if_pos rfl]

theorem fqMarkerOf_oracle : fqMarkerOf ("oracle".toList) = oraMarker := by
  unfold fqMarkerOf
  rw [if_neg (by decide), if_neg (by decide), if_pos rfl]

/-- C2 counterexample: the placeholder rewrite invoked by the executor
(`EasyDBGClient._executeQuery` calls `prepare`) returns an MSSQL
statement unchanged: for `select * from t where a = ?` with one binding
the output SQL still carries the `?` and contains no `@param` marker,
contradicting the claim that the rewrite step produces MSSQL `@param`
markers. -/
theorem c2_counterexample_mssql :
    (prepareFn ("mssql".toList) ("select * from t where a = ?".toList)
        [JsVal.n 1]).1
      = "select * from t where a = ?".toList ∧
    containsSub
        (prepareFn ("mssql".toList) ("select * from t where a = ?".toList)
          [JsVal.n 1]).1
        ("@param".toList) = false := by
  decide

/-- C2 (amended): for every dialect and every SQL string written as
`N + 1` `?`-free segments joined by `N` canonical `?` markers, both
rewrite steps return the same segments joined by exactly `N`
dialect-native markers numbered left to right — `prepare` uses `$1..$N`
for Postgres, `:1..:N` for Oracle and leaves MySQL **and MSSQL** `?`
unchanged, while `formatQuery` additionally rewrites MSSQL to
`@param0..@param(N-1)` — and the binding list is returned unchanged
(hence still has length `N`). -/
theorem c2_placeholder_roundtrip (ct : Str) (segs : List Str) (params : List JsVal)
    (hct : ct ∈ [("postgres".toList : Str), "mysql".toList, "mssql".toList,
      "oracle".toList])
    (hfree : ∀ s ∈ segs, '?' ∉ s) :
    prepareFn ct (joinSep ['?'] segs) params
      = (withMarkers (prepMarkerOf ct) 0 segs, params) ∧
    formatQuery ct (joinSep ['?'] segs) params
      = (withMarkers (fqMarkerOf ct) 0 segs, params) := by
  have hq := withMarkers_qmark segs 0
  simp only [List.mem_cons, List.not_mem_nil, or_false] at hct
  rcases hct with h | h | h | h
  · subst h
    rw [prepareFn_postgres, formatQuery_postgres, prepMarkerOf_postgres,
      fqMarkerOf_postgres, replaceQ_joinSep pgMarker segs 0 hfree]
    exact ⟨rfl, rfl⟩
  · subst h
    rw [prepareFn_mysql, formatQuery_mysql, prepMarkerOf_mysql,
      fqMarkerOf_mysql, hq]
    exact ⟨rfl, rfl⟩
  · subst h
    rw [prepareFn_mssql, formatQuery_mssql, prepMarkerOf_mssql,
      fqMarkerOf_mssql, hq, replaceQ_joinSep msParamMarker segs 0 hfree]
    exact ⟨rfl, rfl⟩
  · subst h
    rw [prepareFn_oracle, formatQuery_oracle, prepMarkerOf_oracle,
      fqMarkerOf_oracle, replaceQ_joinSep oraMarker segs 0 hfree]
    exact ⟨rfl, rfl⟩

/-- Concrete `?`-free segments for the C2 witness:
`select a from t where b = ? and c = ?`. -/
def c2Segs : List Str :=
  ["select a from t where b = ".toList, " and c = ".toList, []]

theorem c2_placeholder_roundtrip_witness :
    (("postgres".toList : Str) ∈ [("postgres".toList : Str), "mysql".toList,
      "mssql".toList, "oracle".toList]) ∧
    (∀ s ∈ c2Segs, '?' ∉ s) ∧
    prepareFn ("postgres".toList) (joinSep ['?'] c2Segs) [JsVal.n 7, JsVal.n 8]
      = (withMarkers (prepMarkerOf ("postgres".toList)) 0 c2Segs,
         [JsVal.n 7, JsVal.n 8]) :=
  ⟨by decide, by decide,
   (c2_placeholder_roundtrip ("postgres".toList) c2Segs [JsVal.n 7, JsVal.n 8]
      (by decide) (by decide)).1⟩

/-- An aggregate slot `{func, column}` (base-grammar.js:137-138). -/
structure Aggregate where
  func : Str
  column : Str
deriving DecidableEq, Repr

/-- A join entry `{type, table, first, operator, second}`
(base-grammar.js:68-74). -/
structure JoinSpec where
  type_ : Str
  table : Str
  first : Str
  operator : Str
  second : Str
deriving DecidableEq, Repr

/-- A having entry `{column, operator, boolean}` (base-grammar.js:91-99). -/
structure HavingPred where
  column : Str
  operator : Str
  value : JsVal
  boolean : Option Str
deriving DecidableEq, Repr

/-- The statements record consumed by `BaseGrammar.compileSelect`
(base-grammar.js:134-153): aggregate, select, from, joins, wheres,
groups, havings, orders, limit, offset. -/
structure StatementsV1 where
  aggregate : Option Aggregate
  select : List Str
  fromTable : Str
  joins : List JoinSpec
  wheres : List WherePred
  groups : List Str
  havings : List HavingPred
  orders : List OrderSpec
  limit : Option Nat
  offset : Option Nat
deriving DecidableEq, Repr

/-- `BaseGrammar.compileColumns` (base-grammar.js:32-34). -/
def compileColumns (wrap : Str → Str) (cols : List Str) : Str :=
  joinSep (", ".toList) (cols.map wrap)

/-- `BaseGrammar.compileJoins` (base-grammar.js:68-74). -/
def compileJoins (wrap : Str → Str) (joins : List JoinSpec) : Str :=
  match joins with
  | [] => []
  | _ =>
    joinSep [' ']
      (joins.map (fun j =>
        jsUpper j.type_ ++ " JOIN ".toList ++ wrap j.table ++ " ON ".toList ++
          wrap j.first ++ ' ' :: j.operator ++ ' ' :: wrap j.second))

/-- `BaseGrammar.compileGroups` (base-grammar.js:81-84). -/
def compileGroups (wrap : Str → Str) (groups : List Str) : Str :=
  if groups = [] then []
  else "GROUP BY ".toList ++ joinSep (", ".toList) (groups.map wrap)

/-- `BaseGrammar.compileHavings` (base-grammar.js:91-99). -/
def compileHavings (wrap : Str → Str) (hs : List HavingPred) : Str :=
  match hs with
  | [] => []
  | h0 :: _ =>
    "HAVING ".toList ++
      joinSep (' ' :: jsStr h0.boolean ++ [' '])
        (hs.map (fun h => wrap h.column ++ ' ' :: h.operator ++ " ?".toList))

/-- `BaseGrammar.compileOrders` (base-grammar.js:106-109). -/
def compileOrders (wrap : Str → Str) (os : List OrderSpec) : Str :=
  if os = [] then []
  else
    "ORDER BY ".toList ++
      joinSep (", ".toList)
        (os.map (fun o => wrap o.column ++ ' ' :: jsUpper o.direction))

/-- `BaseGrammar.compileLimit` (base-grammar.js:116-118). -/
def v1Limit : Option Nat → Str
  | some n => if n = 0 then [] else "LIMIT ".toList ++ natStr n
  | none => []

/-- `BaseGrammar.compileOffset` (base-grammar.js:125-127). -/
def v1Offset : Option Nat → Str
  | some n => if n = 0 then [] else "OFFSET ".toList ++ natStr n
  | none => []

/-- `BaseGrammar.compileSelect` (base-grammar.js:134-153): pieces glued
with single spaces (empty pieces still contribute their leading space)
and the result trimmed. -/
def baseCompileSelect (wrap : Str → Str) (st : StatementsV1) : Str :=
  jsTrim (
    "SELECT ".toList ++
    (match st.aggregate with
     | some ag => jsUpper ag.func ++ '(' :: wrap ag.column ++ ") AS aggregate".toList
     | none => compileColumns wrap st.select) ++
    ' ' :: compileFrom wrap st.fromTable ++
    ' ' :: compileJoins wrap st.joins ++
    ' ' :: compileWheres wrap st.wheres ++
    ' ' :: compileGroups wrap st.groups ++
    ' ' :: compileHavings wrap st.havings ++
    ' ' :: compileOrders wrap st.orders ++
    ' ' :: v1Limit st.limit ++
    ' ' :: v1Offset st.offset)

/-- The fallback ordering column of the MSSQL variant
(base-grammar.js:368): the first selected column, or `(SELECT NULL)`
when it is the wildcard.  (An empty select list would crash the JS
`wrap(undefined)`; the builder always supplies at least `['*']`.) -/
def mssqlAFirstColumn (st : StatementsV1) : Str :=
  match st.select with
  | c :: _ => if c = "*".toList then "(SELECT NULL)".toList else c
  | [] => []

/-- `MssqlGrammar.compileSelect`, the variant defined alongside the base
grammar (base-grammar.js:354-381): without pagination it defers to
`BaseGrammar.compileSelect`; with pagination it appends — after the base
SQL — an injected `ORDER BY` clause when no ordering was specified
(flagged by a `console.warn`, the returned Boolean), then
`OFFSET (offset||0) ROWS` and, when a limit is set, `FETCH NEXT limit
ROWS ONLY`. -/
def mssqlACompileSelect (st : StatementsV1) : Str × Bool :=
  if !optTruthy st.limit && !optTruthy st.offset then
    (baseCompileSelect mssqlAWrap st, false)
  else
    let base := baseCompileSelect mssqlAWrap st
    let injected :=
      if st.orders = [] then
        (base ++ " ORDER BY ".toList ++ mssqlAWrap (mssqlAFirstColumn st), true)
      else (base, false)
    let withOffset :=
      injected.1 ++ " OFFSET ".toList ++ natStr ((st.offset).getD 0) ++ " ROWS".toList
    let withFetch :=
      if optTruthy st.limit then
        withOffset ++ " FETCH NEXT ".toList ++ natStr ((st.limit).getD 0) ++
          " ROWS ONLY".toList
      else withOffset
    (withFetch, injected.2)

/-- `OracleGrammar.compileOffset` (base-grammar.js:258-263). -/
def orcOffset : Option Nat → Str
  | some n => if n = 0 then [] else "offset ".toList ++ natStr n ++ " rows".toList
  | none => []

/-- `OracleGrammar.compileLimit` (base-grammar.js:271-276). -/
def orcLimit : Option Nat → Str
  | some n => if n = 0 then [] else "fetch next ".toList ++ natStr n ++ " rows only".toList
  | none => []

/-- `OracleGrammar.compileSelect` (base-grammar.js:228-251): parts
select-core, FROM, WHERE, ORDER BY, offset, limit, empty parts filtered
and joined by single spaces; when pagination is requested without an
ORDER BY only a `console.warn` is emitted (the returned Boolean) and no
ordering is injected.  Uses the spec-modelled `compileSelectCore` and
`compileOrderBy` helpers. -/
def oracleCompileSelect (st : Statements) : Str × Bool :=
  let warned := (optTruthy st.offset || optTruthy st.limit) && st.orderBy.isEmpty
  (concatParts
    [compileSelectCore baseWrap st.select,
     compileFrom baseWrap st.fromTable,
     compileWheres baseWrap st.whereList,
     compileOrderBy baseWrap st.orderBy,
     orcOffset st.offset,
     orcLimit st.limit],
   warned)

theorem filter_middle_false {α : Type} (p : α → Bool) (x : α) (hx : p x = false)
    (l1 l2 : List α) :
    List.filter p (l1 ++ x :: l2) = List.filter p (l1 ++ l2) := by
  induction l1 with
  | nil => simp [List.filter_cons, hx]
  | cons a t ih => simp only [List.cons_append, List.filter_cons, ih]

/-- C3: with `limit` or `offset` set and no ordering, the MSSQL grammar
variant compiles SQL of the shape `… ORDER BY … OFFSET … ROWS …` — an
injected ORDER BY clause preceding the OFFSET clause — and flags it
with a warning; for the same input the Oracle grammar only warns and the
compiled SQL is exactly the join of the other clauses, with no injected
ORDER BY part. -/
theorem c3_pagination_order_by (stA : StatementsV1) (stO : Statements)
    (hA1 : stA.orders = [])
    (hA2 : optTruthy stA.limit = true ∨ optTruthy stA.offset = true)
    (hO1 : stO.orderBy = [])
    (hO2 : optTruthy stO.limit = true ∨ optTruthy stO.offset = true) :
    (∃ pre mid post,
      (mssqlACompileSelect stA).1
        = pre ++ " ORDER BY ".toList ++ mid ++ " OFFSET ".toList ++ post) ∧
    (mssqlACompileSelect stA).2 = true ∧
    (oracleCompileSelect stO).2 = true ∧
    (oracleCompileSelect stO).1 = concatParts
      [compileSelectCore baseWrap stO.select,
       compileFrom baseWrap stO.fromTable,
       compileWheres baseWrap stO.whereList,
       orcOffset stO.offset,
       orcLimit stO.limit] := by
  have hpag : (!optTruthy stA.limit && !optTruthy stA.offset) = false := by
    rcases hA2 with h | h <;> simp [h]
  refine ⟨?_, ?_, ?_, ?_⟩
  · refine ⟨baseCompileSelect mssqlAWrap stA, mssqlAWrap (mssqlAFirstColumn stA),
      natStr ((stA.offset).getD 0) ++ " ROWS".toList ++
        (if optTruthy stA.limit then
          " FETCH NEXT ".toList ++ natStr ((stA.limit).getD 0) ++ " ROWS ONLY".toList
         else []), ?_⟩
    unfold mssqlACompileSelect
    rw [hpag]
    simp only [Bool.false_eq_true, if_false, hA1, if_pos rfl]
    by_cases hl : optTruthy stA.limit = true
    · simp [hl]
    · simp [hl]
  · unfold mssqlACompileSelect
    rw [hpag]
    simp [hA1]
  · unfold oracleCompileSelect
    rcases hO2 with h | h <;> simp [h, hO1]
  · unfold oracleCompileSelect
    simp only [hO1]
    rw [show compileOrderBy baseWrap [] = [] from by simp [compileOrderBy]]
    unfold concatParts
    exact congrArg (joinSep [' '])
      (filter_middle_false (fun p => !p.isEmpty) [] (by simp)
        [compileSelectCore baseWrap stO.select, compileFrom baseWrap stO.fromTable,
         compileWheres baseWrap stO.whereList]
        [orcOffset stO.offset, orcLimit stO.limit])

/-- A paginated, unordered MSSQL-style statement record for the C3
witness. -/
def c3StA : StatementsV1 :=
  ⟨none, ["id".toList], "t".toList, [], [], [], [], [], some 5, none⟩

/-- A paginated, unordered Oracle-style statement record for the C3
witness. -/
def c3StO : Statements :=
  ⟨["id".toList], "t".toList, [], [], some 5, none, none⟩

theorem c3_pagination_order_by_witness :
    c3StA.orders = [] ∧
    (optTruthy c3StA.limit = true ∨ optTruthy c3StA.offset = true) ∧
    c3StO.orderBy = [] ∧
    (optTruthy c3StO.limit = true ∨ optTruthy c3StO.offset = true) ∧
    ((∃ pre mid post,
      (mssqlACompileSelect c3StA).1
        = pre ++ " ORDER BY ".toList ++ mid ++ " OFFSET ".toList ++ post) ∧
     (mssqlACompileSelect c3StA).2 = true ∧
     (oracleCompileSelect c3StO).2 = true ∧
     (oracleCompileSelect c3StO).1 = concatParts
       [compileSelectCore baseWrap c3StO.select,
        compileFrom baseWrap c3StO.fromTable,
        compileWheres baseWrap c3StO.whereList,
        orcOffset c3StO.offset,
        orcLimit c3StO.limit]) :=
  ⟨rfl, Or.inl (by decide), rfl, Or.inl (by decide),
   c3_pagination_order_by c3StA c3StO rfl (Or.inl (by decide)) rfl
     (Or.inl (by decide))⟩

/-- A control or data command issued on the transaction connection via
`Transaction.query`; `render` gives the exact SQL text the source sends
(transaction.js:68-114). -/
inductive Cmd where
  | sqlCmd (s : Str)
  | savepointCmd (name : Str)
  | rollbackToCmd (name : Str)
  | beginCmd
  | commitCmd
  | rollbackCmd
deriving DecidableEq, Repr

/-- The SQL text of each command (transaction.js:68-114: `BEGIN`,
`COMMIT`, `ROLLBACK`, `SAVEPOINT ${name}`,
`ROLLBACK TO SAVEPOINT ${name}`). -/
def Cmd.render : Cmd → Str
  | .sqlCmd s => s
  | .savepointCmd n => "SAVEPOINT ".toList ++ n
  | .rollbackToCmd n => "ROLLBACK TO SAVEPOINT ".toList ++ n
  | .beginCmd => "BEGIN".toList
  | .commitCmd => "COMMIT".toList
  | .rollbackCmd => "ROLLBACK".toList

/-- The deterministic savepoint name chosen on nested entry
(client.js:378): `` `easydbg_sp_${existingTrx.level + 1}` ``. -/
def savepointName (lvl : Nat) : Str :=
  "easydbg_sp_".toList ++ natStr (lvl + 1)

/-- `EasyDBGClient.transaction` with `existingTrx` set
(client.js:375-388) combined with `Transaction.savepoint`/`rollbackTo`
(transaction.js:102-114).  The body is abstracted by the commands it
issues and its outcome.  Entry: `savepoint(name)` increments the level
and issues `SAVEPOINT name`.  Success: the result is returned, no
commit is issued and the level stays incremented (the source never
decrements it on success).  Failure: `rollbackTo(name)` issues
`ROLLBACK TO SAVEPOINT name`, decrements the level back, and the
original error is re-thrown. -/
def nestedTransaction {α : Type} (lvl : Nat) (bodyCmds : List Cmd)
    (outcome : Except JsError α) : Except JsError α × Nat × List Cmd :=
  let name := savepointName lvl
  match outcome with
  | .ok a => (Except.ok a, lvl + 1, Cmd.savepointCmd name :: bodyCmds)
  | .error e =>
    (Except.error e, lvl + 1 - 1,
     Cmd.savepointCmd name :: bodyCmds ++ [Cmd.rollbackToCmd name])

/-- C4: when the body of a nested transaction fails, the coordinator
issues `ROLLBACK TO SAVEPOINT` for exactly the savepoint created at
entry (and no other), returns the nesting level to its entry value
(the savepoint's increment is undone), re-raises the original error,
and issues neither `ROLLBACK` nor `COMMIT` — the enclosing transaction
is left active. -/
theorem c4_nested_rollback {α : Type} (lvl : Nat) (bodyCmds : List Cmd)
    (e : JsError)
    (hbody : ∀ c ∈ bodyCmds, ∃ s, c = Cmd.sqlCmd s) :
    (nestedTransaction lvl bodyCmds (Except.error e : Except JsError α)).1
      = Except.error e ∧
    (nestedTransaction lvl bodyCmds (Except.error e : Except JsError α)).2.1
      = lvl ∧
    (nestedTransaction lvl bodyCmds (Except.error e : Except JsError α)).2.2.head?
      = some (Cmd.savepointCmd (savepointName lvl)) ∧
    (∀ n, Cmd.rollbackToCmd n
        ∈ (nestedTransaction lvl bodyCmds (Except.error e : Except JsError α)).2.2 →
      n = savepointName lvl) ∧
    Cmd.rollbackCmd
      ∉ (nestedTransaction lvl bodyCmds (Except.error e : Except JsError α)).2.2 ∧
    Cmd.commitCmd
      ∉ (nestedTransaction lvl bodyCmds (Except.error e : Except JsError α)).2.2 := by
  refine ⟨rfl, rfl, rfl, ?_, ?_, ?_⟩
  · intro n hn
    rcases List.mem_cons.mp hn with h | h
    · exact absurd h (by simp)
    · rcases List.mem_append.mp h with h2 | h2
      · rcases hbody _ h2 with ⟨s, hs⟩
        exact absurd hs (by simp)
      · have h3 := List.mem_singleton.mp h2
        injection h3
  · intro hmem
    rcases List.mem_cons.mp hmem with h | h
    · exact absurd h (by simp)
    · rcases List.mem_append.mp h with h2 | h2
      · rcases hbody _ h2 with ⟨s, hs⟩
        exact absurd hs (by simp)
      · exact absurd (List.mem_singleton.mp h2) (by simp)
  · intro hmem
    rcases List.mem_cons.mp hmem with h | h
    · exact absurd h (by simp)
    · rcases List.mem_append.mp h with h2 | h2
      · rcases hbody _ h2 with ⟨s, hs⟩
        exact absurd hs (by simp)
      · exact absurd (List.mem_singleton.mp h2) (by simp)

/-- A sample body error for the transaction witnesses. -/
def bodyErr : JsError :=
  ⟨"Error".toList, "boom".toList, []⟩

theorem c4_nested_rollback_witness :
    (∀ c ∈ [Cmd.sqlCmd ("insert into t values (1)".toList)],
      ∃ s, c = Cmd.sqlCmd s) ∧
    ((nestedTransaction 0 [Cmd.sqlCmd ("insert into t values (1)".toList)]
        (Except.error bodyErr : Except JsError Unit)).1 = Except.error bodyErr ∧
     (nestedTransaction 0 [Cmd.sqlCmd ("insert into t values (1)".toList)]
        (Except.error bodyErr : Except JsError Unit)).2.1 = 0 ∧
     (nestedTransaction 0 [Cmd.sqlCmd ("insert into t values (1)".toList)]
        (Except.error bodyErr : Except JsError Unit)).2.2.head?
       = some (Cmd.savepointCmd (savepointName 0)) ∧
     (∀ n, Cmd.rollbackToCmd n
         ∈ (nestedTransaction 0 [Cmd.sqlCmd ("insert into t values (1)".toList)]
            (Except.error bodyErr : Except JsError Unit)).2.2 →
       n = savepointName 0) ∧
     Cmd.rollbackCmd
       ∉ (nestedTransaction 0 [Cmd.sqlCmd ("insert into t values (1)".toList)]
          (Except.error bodyErr : Except JsError Unit)).2.2 ∧
     Cmd.commitCmd
       ∉ (nestedTransaction 0 [Cmd.sqlCmd ("insert into t values (1)".toList)]
          (Except.error bodyErr : Except JsError Unit)).2.2) :=
  ⟨by intro c hc; simp at hc; exact ⟨_, hc⟩,
   c4_nested_rollback 0 [Cmd.sqlCmd ("insert into t values (1)".toList)] bodyErr
     (by intro c hc; simp at hc; exact ⟨_, hc⟩)⟩

/-- The observable steps of a top-level transaction
(client.js:390-406). -/
inductive Action where
  | beginStep
  | bodyStep
  | commitStep
  | rollbackStep
  | releaseStep
deriving DecidableEq, Repr

/-- JS `try { … } catch (e) { … } finally { … }`: the finally log is
appended on every path; on a failed try part the catch part decides the
result. -/
def tryCatchFinally {α : Type} (tryPart : Except JsError α × List Action)
    (catchPart : JsError → Except JsError α × List Action)
    (finallyPart : List Action) : Except JsError α × List Action :=
  match tryPart with
  | (.ok a, log) => (Except.ok a, log ++ finallyPart)
  | (.error e, log) =>
    match catchPart e with
    | (r, log2) => (r, log ++ log2 ++ finallyPart)

/-- `TransactionError` construction (TransactionError.js, wrapping the
driver error and a fixed message). -/
def transactionError (cause : JsError) (msg : Str) : JsError :=
  ⟨"TransactionError".toList, msg, (cause.name, cause.message) :: cause.causes⟩

/-- Message of `Transaction.commit` failure (transaction.js:200-206). -/
def trxCommitMsg : Str :=
  "Falha ao confirmar a transação (COMMIT).".toList

/-- Message of `Transaction.rollback` failure (transaction.js:208-219). -/
def trxRollbackMsg : Str :=
  "Falha ao reverter a transação (ROLLBACK).".toList

/-- `Transaction.commit` (transaction.js:200-206): the driver commit
either succeeds or its error is wrapped in a `TransactionError`. -/
def trxCommit (commitErr : Option JsError) : Except JsError Unit × List Action :=
  match commitErr with
  | none => (Except.ok (), [Action.commitStep])
  | some ce => (Except.error (transactionError ce trxCommitMsg), [Action.commitStep])

/-- `Transaction.rollback` (transaction.js:208-219). -/
def trxRollback (rollbackErr : Option JsError) : Except JsError Unit × List Action :=
  match rollbackErr with
  | none => (Except.ok (), [Action.rollbackStep])
  | some re => (Except.error (transactionError re trxRollbackMsg), [Action.rollbackStep])

/-- The top-level path of `EasyDBGClient.transaction`
(client.js:390-406): acquire a dedicated connection, `try { begin;
body; commit } catch (e) { rollback; rethrow } finally { release }`.
The body is abstracted by its outcome; a driver failure of COMMIT or
ROLLBACK is injected through `commitErr`/`rollbackErr` (`begin` is
modelled as succeeding). -/
def topLevelTransaction {α : Type} (outcome : Except JsError α)
    (commitErr rollbackErr : Option JsError) : Except JsError α × List Action :=
  tryCatchFinally
    (match outcome with
     | .ok a =>
       (match trxCommit commitErr with
        | (.ok _, l) => (Except.ok a, Action.beginStep :: Action.bodyStep :: l)
        | (.error e, l) => (Except.error e, Action.beginStep :: Action.bodyStep :: l))
     | .error e => (Except.error e, [Action.beginStep, Action.bodyStep]))
    (fun e0 =>
      match trxRollback rollbackErr with
      | (.ok _, l) => (Except.error e0, l)
      | (.error e, l) => (Except.error e, l))
    [Action.releaseStep]

/-- C5: a top-level transaction releases its dedicated connection on
every exit path — the `release` step is always the last action, after a
successful commit, after a rollback caused by a body error, and even
when the COMMIT or ROLLBACK command itself fails — and a COMMIT or
ROLLBACK failure surfaces as an error whose class is `TransactionError`
rather than being swallowed. -/
theorem c5_toplevel_release {α : Type} (outcome : Except JsError α)
    (commitErr rollbackErr : Option JsError) :
    (∃ l, (topLevelTransaction outcome commitErr rollbackErr).2
      = l ++ [Action.releaseStep]) ∧
    (∀ a ce, outcome = Except.ok a → commitErr = some ce →
      ∃ err, (topLevelTransaction outcome commitErr rollbackErr).1
          = Except.error err ∧
        err.name = "TransactionError".toList) ∧
    (∀ e re, outcome = Except.error e → rollbackErr = some re →
      ∃ err, (topLevelTransaction outcome commitErr rollbackErr).1
          = Except.error err ∧
        err.name = "TransactionError".toList) := by
  refine ⟨?_, ?_, ?_⟩
  · unfold topLevelTransaction tryCatchFinally
    cases outcome with
    | ok a =>
      cases commitErr with
      | none => exact ⟨_, rfl⟩
      | some ce =>
        cases rollbackErr with
        | none =>
          exact ⟨[Action.beginStep, Action.bodyStep, Action.commitStep,
            Action.rollbackStep], rfl⟩
        | some re =>
          exact ⟨[Action.beginStep, Action.bodyStep, Action.commitStep,
            Action.rollbackStep], rfl⟩
    | error e =>
      cases rollbackErr with
      | none =>
        exact ⟨[Action.beginStep, Action.bodyStep, Action.rollbackStep], rfl⟩
      | some re =>
        exact ⟨[Action.beginStep, Action.bodyStep, Action.rollbackStep], rfl⟩
  · intro a ce hok hce
    subst hok; subst hce
    cases rollbackErr with
    | none =>
      exact ⟨transactionError ce trxCommitMsg, rfl, rfl⟩
    | some re =>
      exact ⟨transactionError re trxRollbackMsg, rfl, rfl⟩
  · intro e re herr hre
    subst herr; subst hre
    exact ⟨transactionError re trxRollbackMsg, rfl, rfl⟩

theorem c5_toplevel_release_witness :
    (∃ l, (topLevelTransaction (Except.ok 0 : Except JsError Nat)
        (some bodyErr) none).2 = l ++ [Action.releaseStep]) ∧
    (∃ err, (topLevelTransaction (Except.ok 0 : Except JsError Nat)
        (some bodyErr) none).1 = Except.error err ∧
      err.name = "TransactionError".toList) :=
  ⟨(c5_toplevel_release (Except.ok 0) (some bodyErr) none).1,
   (c5_toplevel_release (Except.ok 0) (some bodyErr) none).2.1 0 bodyErr rfl rfl⟩

/-- A column definition collected by `TableBuilder._addColumn`
(table-builder.js): generic type, name, sizing attributes and
constraint flags. -/
structure Column where
  type_ : Str
  name : Str
  length : Nat
  precision : Nat
  scale : Nat
  isNullable : Bool
  isUnique : Bool
  isPrimary : Bool
  defaultValue : Option JsVal
deriving DecidableEq, Repr

/-- A table-level command collected by `TableBuilder._addCommand`
(index / primary / …). -/
structure TableCommand where
  type_ : Str
  columns : List Str
  indexName : Option Str
deriving DecidableEq, Repr

/-- The `TableBuilder` state consumed by the schema grammars:
`tableName`, `_columns`, `_commands`. -/
structure TableBuilder where
  tableName : Str
  columns : List Column
  commands : List TableCommand
deriving DecidableEq, Repr

/-- Oracle schema-grammar `wrap` (oracle-schema-grammar.js:200):
`"${value}"`. -/
def oSchemaWrap (v : Str) : Str := '"' :: v ++ ['"']

/-- `OracleSchemaGrammar._getType` (oracle-schema-grammar.js:106-130);
an unsupported type throws a plain `Error` (the repository defines no
`UnsupportedTypeError` class). -/
def oracleGetType (c : Column) : Except JsError Str :=
  if c.type_ = "increments".toList then Except.ok ("number(10, 0)".toList)
  else if c.type_ = "bigIncrements".toList then Except.ok ("number(20, 0)".toList)
  else if c.type_ = "string".toList then
    Except.ok ("varchar2(".toList ++ natStr c.length ++ " char)".toList)
  else if c.type_ = "text".toList then Except.ok ("clob".toList)
  else if c.type_ = "integer".toList then Except.ok ("number(10, 0)".toList)
  else if c.type_ = "bigInteger".toList then Except.ok ("number(20, 0)".toList)
  else if c.type_ = "boolean".toList then Except.ok ("number(1, 0)".toList)
  else if c.type_ = "decimal".toList then
    Except.ok ("number(".toList ++ natStr c.precision ++ ", ".toList ++
      natStr c.scale ++ ")".toList)
  else if c.type_ = "timestamp".toList ∨ c.type_ = "timestamptz".toList then
    Except.ok ("timestamp".toList)
  else
    Except.error ⟨"Error".toList,
      "Tipo de coluna não suportado para Oracle: ".toList ++ c.type_, []⟩

/-- `OracleSchemaGrammar._formatDefaultValue`
(oracle-schema-grammar.js:151-162): strings quoted, booleans as 1/0,
values containing `now()` as `current_timestamp`, numbers verbatim. -/
def oracleFormatDefault (v : JsVal) : Str :=
  match v with
  | .s str => sq :: str ++ [sq]
  | .b true => "1".toList
  | .b false => "0".toList
  | .n k => intStr k

/-- `OracleSchemaGrammar._getModifiers` (oracle-schema-grammar.js:136-145):
DEFAULT, NOT NULL, PRIMARY KEY, UNIQUE, in that order. -/
def oracleGetModifiers (c : Column) : Str :=
  (match c.defaultValue with
   | some v => " default ".toList ++ oracleFormatDefault v
   | none => []) ++
  (if c.isNullable = false then " not null".toList else []) ++
  (if c.isPrimary then " primary key".toList else []) ++
  (if c.isUnique then " unique".toList else [])

/-- Sequential mapping with exception propagation: the first thrown
error aborts the iteration, as a JS `throw` inside `Array.map` does. -/
def mapExcept {β : Type} (f : Column → Except JsError β) :
    List Column → Except JsError (List β)
  | [] => Except.ok []
  | c :: t =>
    match f c with
    | .error e => Except.error e
    | .ok v =>
      match mapExcept f t with
      | .error e => Except.error e
      | .ok vs => Except.ok (v :: vs)

/-- One compiled Oracle column: `wrap(name) type modifiers`
(oracle-schema-grammar.js:93-100). -/
def oracleColumnSql (c : Column) : Except JsError Str :=
  match oracleGetType c with
  | .error e => Except.error e
  | .ok t => Except.ok (oSchemaWrap c.name ++ ' ' :: t ++ oracleGetModifiers c)

/-- `OracleSchemaGrammar._getColumns` (oracle-schema-grammar.js:93-100). -/
def oracleGetColumns (tb : TableBuilder) : Except JsError (List Str) :=
  mapExcept oracleColumnSql tb.columns

/-- `OracleSchemaGrammar._getSequenceName`
(oracle-schema-grammar.js:168-171):
`` `${tableName.substring(0, 25)}_seq`.toUpperCase() ``. -/
def oracleGetSequenceName (tableName : Str) : Str :=
  jsUpper (tableName.take 25 ++ "_seq".toList)

/-- `OracleSchemaGrammar._compileCreateSequence`
(oracle-schema-grammar.js:177-179). -/
def oracleCompileCreateSequence (seqName : Str) : Str :=
  "create sequence ".toList ++ oSchemaWrap seqName

/-- The trigger name (oracle-schema-grammar.js:186):
`` `${tableName.substring(0, 21)}_bir`.toUpperCase() ``. -/
def oracleTriggerName (tableName : Str) : Str :=
  jsUpper (tableName.take 21 ++ "_bir".toList)

/-- `OracleSchemaGrammar._compileCreateTrigger`
(oracle-schema-grammar.js:185-197): a before-insert-row trigger that
assigns `seq.nextval` when the column is null. -/
def oracleCompileCreateTrigger (tableName columnName seqName : Str) : Str :=
  "\n      create or replace trigger ".toList ++
  oSchemaWrap (oracleTriggerName tableName) ++
  "\n      before insert on ".toList ++ oSchemaWrap tableName ++
  "\n      for each row\n      begin\n        if :new.".toList ++
  oSchemaWrap columnName ++
  " is null then\n          :new.".toList ++ oSchemaWrap columnName ++
  " := ".toList ++ oSchemaWrap seqName ++
  ".nextval".toList ++
  ";\n        end if;\n      end;\n    ".toList

/-- The auto-increment test (oracle-schema-grammar.js:29):
`c.type === 'increments' || c.type === 'bigIncrements'`. -/
def isIncrementsCol (c : Column) : Bool :=
  c.type_ == "increments".toList || c.type_ == "bigIncrements".toList

/-- `OracleSchemaGrammar.compileCreateTable`
(oracle-schema-grammar.js:21-37): the CREATE TABLE statement, followed —
when an auto-increment column is present — by CREATE SEQUENCE and the
before-insert trigger. -/
def oracleCompileCreateTable (tb : TableBuilder) : Except JsError (List Str) :=
  match oracleGetColumns tb with
  | .error e => Except.error e
  | .ok cols =>
    let createTableSql :=
      "create table ".toList ++ oSchemaWrap tb.tableName ++ " (".toList ++
        joinSep (", ".toList) cols ++ ")".toList
    match tb.columns.find? isIncrementsCol with
    | some c =>
      let seqName := oracleGetSequenceName tb.tableName
      Except.ok [createTableSql, oracleCompileCreateSequence seqName,
        oracleCompileCreateTrigger tb.tableName c.name seqName]
    | none => Except.ok [createTableSql]

/-- C6: when `_getColumns` succeeds, `compileCreateTable` for Oracle
returns, for a table with an auto-increment (`increments` or
`bigIncrements`) column, exactly three statements in order — a
`create table` statement, `create sequence "SEQ"`, and a
`create or replace trigger` statement whose text references exactly the
same wrapped sequence name `"SEQ"` via `"SEQ".nextval` — and, for a
table without an auto-increment column, exactly one statement. -/
theorem c6_oracle_autoincrement (tb : TableBuilder) (cols : List Str)
    (hcols : oracleGetColumns tb = Except.ok cols) :
    (∀ c, tb.columns.find? isIncrementsCol = some c →
      oracleCompileCreateTable tb = Except.ok
        ["create table ".toList ++ oSchemaWrap tb.tableName ++ " (".toList ++
           joinSep (", ".toList) cols ++ ")".toList,
         "create sequence ".toList ++
           oSchemaWrap (oracleGetSequenceName tb.tableName),
         oracleCompileCreateTrigger tb.tableName c.name
           (oracleGetSequenceName tb.tableName)] ∧
      (∃ pre post, oracleCompileCreateTrigger tb.tableName c.name
          (oracleGetSequenceName tb.tableName)
        = pre ++ oSchemaWrap (oracleGetSequenceName tb.tableName) ++
            ".nextval".toList ++ post)) ∧
    (tb.columns.find? isIncrementsCol = none →
      oracleCompileCreateTable tb = Except.ok
        ["create table ".toList ++ oSchemaWrap tb.tableName ++ " (".toList ++
           joinSep (", ".toList) cols ++ ")".toList]) := by
  constructor
  · intro c hc
    constructor
    · unfold oracleCompileCreateTable
      rw [hcols, hc]
      rfl
    · refine ⟨"\n      create or replace trigger ".toList ++
        oSchemaWrap (oracleTriggerName tb.tableName) ++
        "\n      before insert on ".toList ++ oSchemaWrap tb.tableName ++
        "\n      for each row\n      begin\n        if :new.".toList ++
        oSchemaWrap c.name ++
        " is null then\n          :new.".toList ++ oSchemaWrap c.name ++
        " := ".toList,
        ";\n        end if;\n      end;\n    ".toList, ?_⟩
      unfold oracleCompileCreateTrigger
      simp [List.append_assoc]
  · intro hc
    unfold oracleCompileCreateTable
    rw [hcols, hc]

/-- A users table with an `increments` primary key and a string column,
as built by `increments('id'); string('name')`. -/
def c6Table : TableBuilder :=
  ⟨"users".toList,
   [⟨"increments".toList, "id".toList, 255, 8, 2, true, false, true, none⟩,
    ⟨"string".toList, "name".toList, 100, 8, 2, true, false, false, none⟩],
   []⟩

theorem c6_oracle_autoincrement_witness :
    (∃ cols, oracleGetColumns c6Table = Except.ok cols) ∧
    (∃ stmts, oracleCompileCreateTable c6Table = Except.ok stmts ∧
      stmts.length = 3) := by
  refine ⟨⟨_, rfl⟩, ?_⟩
  have h := (c6_oracle_autoincrement c6Table _ rfl).1
    (⟨"increments".toList, "id".toList, 255, 8, 2, true, false, true, none⟩)
    (by decide)
  exact ⟨_, h.1, rfl⟩

/-- `OracleSchemaGrammar.compileDropTableIfExists`
(oracle-schema-grammar.js:54-68): a guarded anonymous PL/SQL block that
drops the table and its sequence, swallowing only the error codes -942
(table not found) and -2289 (sequence not found).  The chunking below is
for proof convenience; the concatenation is exactly the JS template
literal. -/
def oracleCompileDropTableIfExists (tableName : Str) : Str :=
  "\n      begin\n        ".toList ++
  ("execute immediate ".toList ++ [sq] ++ "drop table ".toList ++
    oSchemaWrap tableName ++ " cascade constraints".toList ++ [sq]) ++
  ";\n        ".toList ++
  ("execute immediate ".toList ++ [sq] ++ "drop sequence ".toList ++
    oSchemaWrap (oracleGetSequenceName tableName) ++ [sq]) ++
  ";\n      exception\n        when others then\n          ".toList ++
  "if sqlcode != -942 and sqlcode != -2289 then\n            raise;\n          end if;".toList ++
  "\n      end;\n    ".toList

/-- The guard condition of the emitted exception handler:
`sqlcode != -942 and sqlcode != -2289` — true exactly when the handler
re-raises. -/
def guardReRaises (code : Int) : Bool :=
  decide (code ≠ -942 ∧ code ≠ -2289)

/-- Semantics of the emitted anonymous block: the two `execute
immediate` statements run in order; the first raised error code jumps to
the handler, which re-raises it exactly when `guardReRaises` holds.
`tableErr`/`seqErr` are the error codes raised by the two drops (if
any); the result is the error the whole block raises (if any). -/
def runOracleDropBlock : Option Int → Option Int → Option Int
  | some c, _ => if guardReRaises c then some c else none
  | none, some c => if guardReRaises c then some c else none
  | none, none => none

/-- C7: for every table name the Oracle `compileDropTableIfExists`
output is a single anonymous block containing a guarded
`drop table … cascade constraints`, a guarded `drop sequence` for the
table's sequence name, and an exception handler whose guard re-raises
exactly the codes other than -942 and -2289; consequently, running the
block when the table does not exist (the table drop raises -942)
raises nothing, and likewise for a missing sequence (-2289). -/
theorem c7_oracle_drop_if_exists (t : Str) :
    (∃ a b, oracleCompileDropTableIfExists t
      = a ++ ("execute immediate ".toList ++ [sq] ++ "drop table ".toList ++
          oSchemaWrap t ++ " cascade constraints".toList ++ [sq]) ++ b) ∧
    (∃ a b, oracleCompileDropTableIfExists t
      = a ++ ("execute immediate ".toList ++ [sq] ++ "drop sequence ".toList ++
          oSchemaWrap (oracleGetSequenceName t) ++ [sq]) ++ b) ∧
    (∃ a b, oracleCompileDropTableIfExists t
      = a ++ "if sqlcode != -942 and sqlcode != -2289 then\n            raise;\n          end if;".toList ++ b) ∧
    (∀ code se, runOracleDropBlock (some code) se = none
      ↔ (code = -942 ∨ code = -2289)) ∧
    (∀ code, runOracleDropBlock none (some code) = none
      ↔ (code = -942 ∨ code = -2289)) ∧
    (∀ se, runOracleDropBlock (some (-942)) se = none) ∧
    runOracleDropBlock none (some (-2289)) = none := by
  refine ⟨?_, ?_, ?_, ?_, ?_, ?_, ?_⟩
  · refine ⟨"\n      begin\n        ".toList,
      ";\n        ".toList ++
      ("execute immediate ".toList ++ [sq] ++ "drop sequence ".toList ++
        oSchemaWrap (oracleGetSequenceName t) ++ [sq]) ++
      ";\n      exception\n        when others then\n          ".toList ++
      "if sqlcode != -942 and sqlcode != -2289 then\n            raise;\n          end if;".toList ++
      "\n      end;\n    ".toList, ?_⟩
    simp only [oracleCompileDropTableIfExists, List.append_assoc]
  · refine ⟨"\n      begin\n        ".toList ++
      ("execute immediate ".toList ++ [sq] ++ "drop table ".toList ++
        oSchemaWrap t ++ " cascade constraints".toList ++ [sq]) ++
      ";\n        ".toList,
      ";\n      exception\n        when others then\n          ".toList ++
      "if sqlcode != -942 and sqlcode != -2289 then\n            raise;\n          end if;".toList ++
      "\n      end;\n    ".toList, ?_⟩
    simp only [oracleCompileDropTableIfExists, List.append_assoc]
  · refine ⟨"\n      begin\n        ".toList ++
      ("execute immediate ".toList ++ [sq] ++ "drop table ".toList ++
        oSchemaWrap t ++ " cascade constraints".toList ++ [sq]) ++
      ";\n        ".toList ++
      ("execute immediate ".toList ++ [sq] ++ "drop sequence ".toList ++
        oSchemaWrap (oracleGetSequenceName t) ++ [sq]) ++
      ";\n      exception\n        when others then\n          ".toList,
      "\n      end;\n    ".toList, ?_⟩
    simp only [oracleCompileDropTableIfExists, List.append_assoc]
  · intro code se
    unfold runOracleDropBlock guardReRaises
    by_cases h1 : code = -942
    · simp [h1]
    · by_cases h2 : code = -2289
      · simp [h1, h2]
      · simp [h1, h2]
  · intro code
    unfold runOracleDropBlock guardReRaises
    by_cases h1 : code = -942
    · simp [h1]
    · by_cases h2 : code = -2289
      · simp [h1, h2]
      · simp [h1, h2]
  · intro se
    unfold runOracleDropBlock guardReRaises
    simp
  · unfold runOracleDropBlock guardReRaises
    simp

/-- MySQL schema-grammar `wrap` (mysql-schema-grammar.js:195-197):
backticks, no splitting. -/
def mySchemaWrap (v : Str) : Str := btick :: v ++ [btick]

/-- MSSQL schema-grammar `wrap` (mssql-schema-grammar.js:161):
square brackets, no splitting. -/
def msSchemaWrap (v : Str) : Str := '[' :: v ++ [']']

/-- `MySqlSchemaGrammar._getType` (mysql-schema-grammar.js:96-121);
unsupported types throw a plain `Error`. -/
def mysqlGetType (c : Column) : Except JsError Str :=
  if c.type_ = "increments".toList then Except.ok ("int unsigned".toList)
  else if c.type_ = "bigIncrements".toList then Except.ok ("bigint unsigned".toList)
  else if c.type_ = "string".toList then
    Except.ok ("varchar(".toList ++ natStr c.length ++ ")".toList)
  else if c.type_ = "text".toList then Except.ok ("text".toList)
  else if c.type_ = "integer".toList then Except.ok ("int".toList)
  else if c.type_ = "bigInteger".toList then Except.ok ("bigint".toList)
  else if c.type_ = "boolean".toList then Except.ok ("tinyint(1)".toList)
  else if c.type_ = "decimal".toList then
    Except.ok ("decimal(".toList ++ natStr c.precision ++ ", ".toList ++
      natStr c.scale ++ ")".toList)
  else if c.type_ = "timestamp".toList ∨ c.type_ = "timestamptz".toList then
    Except.ok ("timestamp".toList)
  else
    Except.error ⟨"Error".toList,
      "Tipo de coluna não suportado para MySQL: ".toList ++ c.type_, []⟩

/-- `MssqlSchemaGrammar._getType` (mssql-schema-grammar.js:87-111);
unsupported types throw a plain `Error`. -/
def mssqlGetType (c : Column) : Except JsError Str :=
  if c.type_ = "increments".toList then Except.ok ("int identity(1,1)".toList)
  else if c.type_ = "bigIncrements".toList then
    Except.ok ("bigint identity(1,1)".toList)
  else if c.type_ = "string".toList then
    Except.ok ("nvarchar(".toList ++ natStr c.length ++ ")".toList)
  else if c.type_ = "text".toList then Except.ok ("nvarchar(max)".toList)
  else if c.type_ = "integer".toList then Except.ok ("int".toList)
  else if c.type_ = "bigInteger".toList then Except.ok ("bigint".toList)
  else if c.type_ = "boolean".toList then Except.ok ("bit".toList)
  else if c.type_ = "decimal".toList then
    Except.ok ("decimal(".toList ++ natStr c.precision ++ ", ".toList ++
      natStr c.scale ++ ")".toList)
  else if c.type_ = "timestamp".toList ∨ c.type_ = "timestamptz".toList then
    Except.ok ("datetime2".toList)
  else
    Except.error ⟨"Error".toList,
      "Tipo de coluna não suportado para MSSQL: ".toList ++ c.type_, []⟩

/-- The column types accepted by the MySQL/MSSQL/Oracle `_getType`
switches (all three accept the same generic types). -/
def schemaTypeSupported (t : Str) : Bool :=
  decide (t ∈ [("increments".toList : Str), "bigIncrements".toList,
    "string".toList, "text".toList, "integer".toList, "bigInteger".toList,
    "boolean".toList, "decimal".toList, "timestamp".toList,
    "timestamptz".toList])

/-- `_formatDefaultValue` of the MySQL grammar
(mysql-schema-grammar.js:150-161). -/
def mysqlFormatDefault (v : JsVal) : Str :=
  match v with
  | .s str => sq :: str ++ [sq]
  | .b true => "1".toList
  | .b false => "0".toList
  | .n k => intStr k

/-- `_formatDefaultValue` of the MSSQL grammar
(mssql-schema-grammar.js:132-143); differs from MySQL only on values
stringifying to `now()`, which scalar bindings never do. -/
def mssqlFormatDefault (v : JsVal) : Str :=
  match v with
  | .s str => sq :: str ++ [sq]
  | .b true => "1".toList
  | .b false => "0".toList
  | .n k => intStr k

/-- `value.toString()` for a scalar. -/
def jsValToString : JsVal → Str
  | .s v => v
  | .b true => "true".toList
  | .b false => "false".toList
  | .n k => intStr k

/-- `MySqlSchemaGrammar._getModifiers` (mysql-schema-grammar.js:127-144):
NOT NULL, AUTO_INCREMENT PRIMARY KEY / PRIMARY KEY, UNIQUE, DEFAULT,
then the `updated_at` ON UPDATE hack — which dereferences
`column.defaultValue.toString()` and therefore throws a `TypeError`
when an `updated_at` column has no default. -/
def mysqlGetModifiers (c : Column) : Except JsError Str :=
  let base :=
    (if c.isNullable = false then " not null".toList else []) ++
    (if c.isPrimary && isIncrementsCol c then " auto_increment primary key".toList
     else if c.isPrimary then " primary key".toList else []) ++
    (if c.isUnique then " unique".toList else []) ++
    (match c.defaultValue with
     | some v => " default ".toList ++ mysqlFormatDefault v
     | none => [])
  if c.name = "updated_at".toList then
    match c.defaultValue with
    | none =>
      Except.error ⟨"TypeError".toList,
        "Cannot read properties of undefined (reading toString)".toList, []⟩
    | some v =>
      Except.ok (base ++
        (if containsSub (jsValToString v) ("now()".toList) then
          " on update current_timestamp".toList
         else []))
  else Except.ok base

/-- `MssqlSchemaGrammar._getModifiers` (mssql-schema-grammar.js:117-126):
NOT NULL, PRIMARY KEY, UNIQUE, DEFAULT. -/
def mssqlGetModifiers (c : Column) : Str :=
  (if c.isNullable = false then " not null".toList else []) ++
  (if c.isPrimary then " primary key".toList else []) ++
  (if c.isUnique then " unique".toList else []) ++
  (match c.defaultValue with
   | some v => " default ".toList ++ mssqlFormatDefault v
   | none => [])

/-- One compiled MySQL column (mysql-schema-grammar.js:75-81). -/
def mysqlColumnSql (c : Column) : Except JsError Str :=
  match mysqlGetType c with
  | .error e => Except.error e
  | .ok t =>
    match mysqlGetModifiers c with
    | .error e => Except.error e
    | .ok m => Except.ok (mySchemaWrap c.name ++ ' ' :: t ++ m)

/-- One compiled MSSQL column (mssql-schema-grammar.js:74-81). -/
def mssqlColumnSql (c : Column) : Except JsError Str :=
  match mssqlGetType c with
  | .error e => Except.error e
  | .ok t => Except.ok (msSchemaWrap c.name ++ ' ' :: t ++ mssqlGetModifiers c)

/-- `MySqlSchemaGrammar._compileTableOptions`
(mysql-schema-grammar.js:167-173); the table builder never sets
engine/charset/collation, so the defaults always apply. -/
def mysqlTableOptions : Str :=
  " engine=InnoDB default character set utf8mb4 collate utf8mb4_unicode_ci".toList

/-- `MySqlSchemaGrammar._compilePrimary` and `_getCommand`
(mysql-schema-grammar.js:179-190): an optional composite primary-key
entry appended to the column list. -/
def mysqlPrimaryPart (tb : TableBuilder) : List Str :=
  match tb.commands.find? (fun cmd => cmd.type_ == "primary".toList) with
  | some cmd =>
    ["primary key (".toList ++
      joinSep (", ".toList) (cmd.columns.map mySchemaWrap) ++ ")".toList]
  | none => []

/-- `MySqlSchemaGrammar.compileCreateTable`
(mysql-schema-grammar.js:20-30): one CREATE TABLE statement with table
options. -/
def mysqlCompileCreateTable (tb : TableBuilder) : Except JsError Str :=
  match mapExcept mysqlColumnSql tb.columns with
  | .error e => Except.error e
  | .ok colDefs =>
    Except.ok ("create table ".toList ++ mySchemaWrap tb.tableName ++
      " (".toList ++ joinSep (", ".toList) (colDefs ++ mysqlPrimaryPart tb) ++
      ")".toList ++ mysqlTableOptions)

/-- `MssqlSchemaGrammar._compileCommands` (mssql-schema-grammar.js:149-158):
index commands compile to CREATE INDEX statements, other commands are
dropped. -/
def mssqlCompileCommands (tb : TableBuilder) : List Str :=
  tb.commands.filterMap (fun cmd =>
    if cmd.type_ == "index".toList then
      some ("create index ".toList ++
        msSchemaWrap
          (match cmd.indexName with
           | some n => n
           | none =>
             tb.tableName ++ '_' :: joinSep ['_'] cmd.columns ++ "_index".toList) ++
        " on ".toList ++ msSchemaWrap tb.tableName ++ " (".toList ++
        joinSep (", ".toList) (cmd.columns.map msSchemaWrap) ++ ")".toList)
    else none)

/-- `MssqlSchemaGrammar.compileCreateTable`
(mssql-schema-grammar.js:21-30): the CREATE TABLE statement followed by
the compiled index commands, empty entries filtered out. -/
def mssqlCompileCreateTable (tb : TableBuilder) : Except JsError (List Str) :=
  match mapExcept mssqlColumnSql tb.columns with
  | .error e => Except.error e
  | .ok colDefs =>
    Except.ok ((("create table ".toList ++ msSchemaWrap tb.tableName ++
      " (".toList ++ joinSep (", ".toList) colDefs ++ ")".toList) ::
      mssqlCompileCommands tb).filter (fun s => !s.isEmpty))

theorem mapExcept_first_error {β : Type} (f : Column → Except JsError β)
    (good : Column → Bool) (l : List Column)
    (h1 : ∀ c ∈ l, good c = false →
      ∃ msg, f c = Except.error ⟨"Error".toList, msg, []⟩)
    (h2 : ∀ c ∈ l, good c = true → ∃ v, f c = Except.ok v)
    (hbad : ∃ c ∈ l, good c = false) :
    ∃ msg, mapExcept f l = Except.error ⟨"Error".toList, msg, []⟩ := by
  induction l with
  | nil => rcases hbad with ⟨c, hc, _⟩; cases hc
  | cons c t ih =>
    by_cases hg : good c = false
    · rcases h1 c (by simp) hg with ⟨msg, hmsg⟩
      refine ⟨msg, ?_⟩
      unfold mapExcept
      rw [hmsg]
    · have hgt : good c = true := by revert hg; cases good c <;> simp
      rcases h2 c (by simp) hgt with ⟨v, hv⟩
      have hbad' : ∃ x ∈ t, good x = false := by
        rcases hbad with ⟨x, hx, hgx⟩
        rcases List.mem_cons.mp hx with rfl | hxt
        · rw [hgx] at hgt; cases hgt
        · exact ⟨x, hxt, hgx⟩
      rcases ih (fun x hx => h1 x (by simp [hx])) (fun x hx => h2 x (by simp [hx]))
          hbad' with ⟨msg, hmsg⟩
      refine ⟨msg, ?_⟩
      unfold mapExcept
      rw [hv, hmsg]

theorem mysqlGetType_ok (c : Column) (h : schemaTypeSupported c.type_ = true) :
    ∃ v, mysqlGetType c = Except.ok v := by
  have hmem := of_decide_eq_true h
  simp only [List.mem_cons, List.not_mem_nil, or_false] at hmem
  unfold mysqlGetType
  rcases hmem with h | h | h | h | h | h | h | h | h | h <;>
    rw [h] <;> exact ⟨_, rfl⟩

theorem mssqlGetType_ok (c : Column) (h : schemaTypeSupported c.type_ = true) :
    ∃ v, mssqlGetType c = Except.ok v := by
  have hmem := of_decide_eq_true h
  simp only [List.mem_cons, List.not_mem_nil, or_false] at hmem
  unfold mssqlGetType
  rcases hmem with h | h | h | h | h | h | h | h | h | h <;>
    rw [h] <;> exact ⟨_, rfl⟩

theorem oracleGetType_ok (c : Column) (h : schemaTypeSupported c.type_ = true) :
    ∃ v, oracleGetType c = Except.ok v := by
  have hmem := of_decide_eq_true h
  simp only [List.mem_cons, List.not_mem_nil, or_false] at hmem
  unfold oracleGetType
  rcases hmem with h | h | h | h | h | h | h | h | h | h <;>
    rw [h] <;> exact ⟨_, rfl⟩

theorem mysqlGetType_error (c : Column) (h : schemaTypeSupported c.type_ = false) :
    mysqlGetType c = Except.error ⟨"Error".toList,
      "Tipo de coluna não suportado para MySQL: ".toList ++ c.type_, []⟩ := by
  have hmem := of_decide_eq_false h
  simp only [List.mem_cons, List.not_mem_nil, or_false, not_or] at hmem
  unfold mysqlGetType
  rw [if_neg hmem.1, if_neg hmem.2.1, if_neg hmem.2.2.1, if_neg hmem.2.2.2.1,
    if_neg hmem.2.2.2.2.1, if_neg hmem.2.2.2.2.2.1, if_neg hmem.2.2.2.2.2.2.1,
    if_neg hmem.2.2.2.2.2.2.2.1]
  rw [if_neg (by
    rcases hmem.2.2.2.2.2.2.2.2 with ⟨ha, hb⟩
    intro hor
    rcases hor with h | h
    · exact ha h
    · exact hb h)]

theorem mssqlGetType_error (c : Column) (h : schemaTypeSupported c.type_ = false) :
    mssqlGetType c = Except.error ⟨"Error".toList,
      "Tipo de coluna não suportado para MSSQL: ".toList ++ c.type_, []⟩ := by
  have hmem := of_decide_eq_false h
  simp only [List.mem_cons, List.not_mem_nil, or_false, not_or] at hmem
  unfold mssqlGetType
  rw [if_neg hmem.1, if_neg hmem.2.1, if_neg hmem.2.2.1, if_neg hmem.2.2.2.1,
    if_neg hmem.2.2.2.2.1, if_neg hmem.2.2.2.2.2.1, if_neg hmem.2.2.2.2.2.2.1,
    if_neg hmem.2.2.2.2.2.2.2.1]
  rw [if_neg (by
    rcases hmem.2.2.2.2.2.2.2.2 with ⟨ha, hb⟩
    intro hor
    rcases hor with h | h
    · exact ha h
    · exact hb h)]

theorem oracleGetType_error (c : Column) (h : schemaTypeSupported c.type_ = false) :
    oracleGetType c = Except.error ⟨"Error".toList,
      "Tipo de coluna não suportado para Oracle: ".toList ++ c.type_, []⟩ := by
  have hmem := of_decide_eq_false h
  simp only [List.mem_cons, List.not_mem_nil, or_false, not_or] at hmem
  unfold oracleGetType
  rw [if_neg hmem.1, if_neg hmem.2.1, if_neg hmem.2.2.1, if_neg hmem.2.2.2.1,
    if_neg hmem.2.2.2.2.1, if_neg hmem.2.2.2.2.2.1, if_neg hmem.2.2.2.2.2.2.1,
    if_neg hmem.2.2.2.2.2.2.2.1]
  rw [if_neg (by
    rcases hmem.2.2.2.2.2.2.2.2 with ⟨ha, hb⟩
    intro hor
    rcases hor with h | h
    · exact ha h
    · exact hb h)]

theorem mysqlGetModifiers_ok (c : Column)
    (h : ¬(c.name = "updated_at".toList ∧ c.defaultValue = none)) :
    ∃ v, mysqlGetModifiers c = Except.ok v := by
  unfold mysqlGetModifiers
  by_cases hn : c.name = "updated_at".toList
  · rw [if_pos hn]
    match hv : c.defaultValue with
    | none => exact absurd ⟨hn, hv⟩ h
    | some v => exact ⟨_, rfl⟩
  · rw [if_neg hn]
    exact ⟨_, rfl⟩

theorem mysqlColumnSql_error (c : Column)
    (h : schemaTypeSupported c.type_ = false) :
    ∃ msg, mysqlColumnSql c = Except.error ⟨"Error".toList, msg, []⟩ := by
  refine ⟨"Tipo de coluna não suportado para MySQL: ".toList ++ c.type_, ?_⟩
  unfold mysqlColumnSql
  rw [mysqlGetType_error c h]

theorem mssqlColumnSql_error (c : Column)
    (h : schemaTypeSupported c.type_ = false) :
    ∃ msg, mssqlColumnSql c = Except.error ⟨"Error".toList, msg, []⟩ := by
  refine ⟨"Tipo de coluna não suportado para MSSQL: ".toList ++ c.type_, ?_⟩
  unfold mssqlColumnSql
  rw [mssqlGetType_error c h]

theorem oracleColumnSql_error (c : Column)
    (h : schemaTypeSupported c.type_ = false) :
    ∃ msg, oracleColumnSql c = Except.error ⟨"Error".toList, msg, []⟩ := by
  refine ⟨"Tipo de coluna não suportado para Oracle: ".toList ++ c.type_, ?_⟩
  unfold oracleColumnSql
  rw [oracleGetType_error c h]

theorem mysqlColumnSql_ok (c : Column)
    (hsupp : schemaTypeSupported c.type_ = true)
    (hup : ¬(c.name = "updated_at".toList ∧ c.defaultValue = none)) :
    ∃ v, mysqlColumnSql c = Except.ok v := by
  rcases mysqlGetType_ok c hsupp with ⟨t, ht⟩
  rcases mysqlGetModifiers_ok c hup with ⟨m, hm⟩
  refine ⟨mySchemaWrap c.name ++ ' ' :: t ++ m, ?_⟩
  unfold mysqlColumnSql
  rw [ht, hm]

theorem mssqlColumnSql_ok (c : Column)
    (hsupp : schemaTypeSupported c.type_ = true) :
    ∃ v, mssqlColumnSql c = Except.ok v := by
  rcases mssqlGetType_ok c hsupp with ⟨t, ht⟩
  refine ⟨msSchemaWrap c.name ++ ' ' :: t ++ mssqlGetModifiers c, ?_⟩
  unfold mssqlColumnSql
  rw [ht]

theorem oracleColumnSql_ok (c : Column)
    (hsupp : schemaTypeSupported c.type_ = true) :
    ∃ v, oracleColumnSql c = Except.ok v := by
  rcases oracleGetType_ok c hsupp with ⟨t, ht⟩
  refine ⟨oSchemaWrap c.name ++ ' ' :: t ++ oracleGetModifiers c, ?_⟩
  unfold oracleColumnSql
  rw [ht]

/-- A table whose single column has the type `uuid`, which no dialect's
`_getType` supports. -/
def c9BadTable : TableBuilder :=
  ⟨"t".toList, [⟨"uuid".toList, "u".toList, 255, 8, 2, true, false, false, none⟩], []⟩

/-- C9 counterexample: compiling a table with an unsupported column type
does fail synchronously at compile time, but the raised error is a plain
`Error` (`err.name = "Error"`), not an `UnsupportedTypeError` — no class
of that name exists anywhere in the repository. -/
theorem c9_counterexample_plain_error :
    mysqlCompileCreateTable c9BadTable = Except.error
      ⟨"Error".toList,
       "Tipo de coluna não suportado para MySQL: uuid".toList, []⟩ ∧
    (JsError.name ⟨"Error".toList,
       "Tipo de coluna não suportado para MySQL: uuid".toList, []⟩
      ≠ "UnsupportedTypeError".toList) := by
  constructor
  · rfl
  · decide

/-- C9 (amended): for each dialect schema grammar present in the
sources (MySQL, MSSQL, Oracle), compiling a table model containing a
column type the dialect does not support fails synchronously at compile
time — `compileCreateTable` returns the thrown error and no SQL text —
but the error is a plain `Error` carrying the
"Tipo de coluna não suportado" message, not a dedicated
`UnsupportedTypeError` class (which the repository does not define).
The `updated_at` hypothesis excludes MySQL's independent `TypeError`
crash path in `_getModifiers`. -/
theorem c9_unsupported_type_compile_error (tb : TableBuilder)
    (hup : ∀ c ∈ tb.columns,
      ¬(c.name = "updated_at".toList ∧ c.defaultValue = none))
    (hbad : ∃ c ∈ tb.columns, schemaTypeSupported c.type_ = false) :
    (∃ e, mysqlCompileCreateTable tb = Except.error e ∧
      e.name = "Error".toList) ∧
    (∃ e, mssqlCompileCreateTable tb = Except.error e ∧
      e.name = "Error".toList) ∧
    (∃ e, oracleCompileCreateTable tb = Except.error e ∧
      e.name = "Error".toList) := by
  refine ⟨?_, ?_, ?_⟩
  · rcases mapExcept_first_error mysqlColumnSql
        (fun c => schemaTypeSupported c.type_) tb.columns
        (fun c _ hg => mysqlColumnSql_error c hg)
        (fun c hc hg => mysqlColumnSql_ok c hg (hup c hc))
        hbad with ⟨msg, hm⟩
    refine ⟨⟨"Error".toList, msg, []⟩, ?_, rfl⟩
    unfold mysqlCompileCreateTable
    rw [hm]
  · rcases mapExcept_first_error mssqlColumnSql
        (fun c => schemaTypeSupported c.type_) tb.columns
        (fun c _ hg => mssqlColumnSql_error c hg)
        (fun c _ hg => mssqlColumnSql_ok c hg)
        hbad with ⟨msg, hm⟩
    refine ⟨⟨"Error".toList, msg, []⟩, ?_, rfl⟩
    unfold mssqlCompileCreateTable
    rw [hm]
  · rcases mapExcept_first_error oracleColumnSql
        (fun c => schemaTypeSupported c.type_) tb.columns
        (fun c _ hg => oracleColumnSql_error c hg)
        (fun c _ hg => oracleColumnSql_ok c hg)
        hbad with ⟨msg, hm⟩
    refine ⟨⟨"Error".toList, msg, []⟩, ?_, rfl⟩
    unfold oracleCompileCreateTable oracleGetColumns
    rw [hm]

theorem c9_unsupported_type_compile_error_witness :
    (∀ c ∈ c9BadTable.columns,
      ¬(c.name = "updated_at".toList ∧ c.defaultValue = none)) ∧
    (∃ c ∈ c9BadTable.columns, schemaTypeSupported c.type_ = false) ∧
    ((∃ e, mysqlCompileCreateTable c9BadTable = Except.error e ∧
       e.name = "Error".toList) ∧
     (∃ e, mssqlCompileCreateTable c9BadTable = Except.error e ∧
       e.name = "Error".toList) ∧
     (∃ e, oracleCompileCreateTable c9BadTable = Except.error e ∧
       e.name = "Error".toList)) :=
  ⟨by decide, by decide,
   c9_unsupported_type_compile_error c9BadTable (by decide) (by decide)⟩

/-- The number of canonical `?` placeholders in a SQL string. -/
def countQ (s : Str) : Nat := s.count '?'

theorem digitChar_ne_qmark (m : Nat) : Nat.digitChar m ≠ '?' := by
  rcases Nat.lt_or_ge m 16 with h | h
  · interval_cases m <;> decide
  · have hne : ∀ k : Nat, k < 16 → m ≠ k := by omega
    unfold Nat.digitChar
    repeat rw [if_neg (hne _ (by norm_num))]
    decide

theorem toDigitsCore_ne_qmark (b : Nat) : ∀ (fuel n : Nat) (ds : List Char),
    (∀ c ∈ ds, c ≠ '?') → ∀ c ∈ Nat.toDigitsCore b fuel n ds, c ≠ '?' := by
  intro fuel
  induction fuel with
  | zero => intro n ds hds c hc; exact hds c hc
  | succ f ih =>
    intro n ds hds c hc
    simp only [Nat.toDigitsCore] at hc
    by_cases h : n / b = 0
    · rw [if_pos h] at hc
      rcases List.mem_cons.mp hc with rfl | hc2
      · exact digitChar_ne_qmark _
      · exact hds c hc2
    · rw [if_neg h] at hc
      refine ih (n / b) (Nat.digitChar (n % b) :: ds) ?_ c hc
      intro x hx
      rcases List.mem_cons.mp hx with rfl | hx2
      · exact digitChar_ne_qmark _
      · exact hds x hx2

theorem natStr_qfree (n : Nat) : '?' ∉ natStr n := by
  intro hmem
  exact toDigitsCore_ne_qmark 10 (n + 1) n []
    (by intro c hc; cases hc) '?' hmem rfl

theorem countQ_append (a b : Str) : countQ (a ++ b) = countQ a + countQ b :=
  List.count_append '?' a b

theorem countQ_zero_of_qfree (s : Str) (h : '?' ∉ s) : countQ s = 0 :=
  List.count_eq_zero.mpr h

theorem countQ_joinSep (sep : Str) (h0 : countQ sep = 0) :
    ∀ parts : List Str, countQ (joinSep sep parts) = (parts.map countQ).sum := by
  intro parts
  induction parts with
  | nil => simp [joinSep, countQ]
  | cons s rest ih =>
    match rest with
    | [] => simp [joinSep]
    | s2 :: t =>
      simp only [joinSep] at ih ⊢
      rw [countQ_append, countQ_append, ih, h0]
      simp [List.map_cons, List.sum_cons]

theorem sum_map_one {α : Type} (l : List α) :
    (l.map (fun _ => (1 : Nat))).sum = l.length := by
  induction l with
  | nil => rfl
  | cons a t ih => simp [ih, Nat.add_comm]

theorem baseWrap_qfree (v : Str) (h : '?' ∉ v) : '?' ∉ baseWrap v := by
  unfold baseWrap
  by_cases hv : v = "*".toList
  · rw [if_pos hv]; exact h
  · rw [if_neg hv]
    intro hc
    rcases List.mem_cons.mp hc with h1 | h1
    · exact absurd h1 (by decide)
    · rcases List.mem_append.mp h1 with h2 | h2
      · exact h (List.mem_of_mem_filter h2)
      · exact absurd (List.mem_singleton.mp h2) (by decide)

theorem countQ_whereFragment (wrap : Str → Str) (w : WherePred)
    (ht : w.type_ ≠ "sub".toList) (hc : '?' ∉ wrap w.column)
    (ho : '?' ∉ w.operator) : countQ (whereFragment wrap w) = 1 := by
  unfold whereFragment
  rw [if_neg ht]
  have h1 : countQ (wrap w.column) = 0 := countQ_zero_of_qfree _ hc
  have h2 : countQ w.operator = 0 := countQ_zero_of_qfree _ ho
  simp only [countQ] at h1 h2 ⊢
  simp [List.count_append, List.count_cons, h1, h2]

theorem countQ_compileWheres (wrap : Str → Str) (ws : List WherePred)
    (hfr : ∀ w ∈ ws, w.type_ ≠ "sub".toList ∧ '?' ∉ wrap w.column ∧ '?' ∉ w.operator)
    (hbool : ∀ w ∈ ws, w.boolean = none) :
    countQ (compileWheres wrap ws) = ws.length := by
  cases ws with
  | nil => rfl
  | cons w0 rest =>
    unfold compileWheres
    rw [countQ_append]
    have hsep : countQ (' ' :: jsStr w0.boolean ++ [' ']) = 0 := by
      rw [hbool w0 (by simp)]
      decide
    rw [countQ_joinSep _ hsep]
    have hmap : ((w0 :: rest).map (whereFragment wrap)).map countQ
        = (w0 :: rest).map (fun _ => (1 : Nat)) := by
      rw [List.map_map]
      refine List.map_congr_left ?_
      intro w hw
      rcases hfr w hw with ⟨h1, h2, h3⟩
      exact countQ_whereFragment wrap w h1 h2 h3
    rw [hmap, sum_map_one]
    rw [show countQ ("WHERE ".toList) = 0 from by decide]
    simp

theorem countQ_dropWhile (s : Str) : countQ (s.dropWhile isWs) = countQ s := by
  induction s with
  | nil => rfl
  | cons c t ih =>
    by_cases h : isWs c = true
    · have hcq : ¬('?' = c) := by
        intro hq
        rw [← hq] at h
        cases h
      rw [List.dropWhile_cons]
      rw [if_pos h, ih]
      simp [countQ, List.count_cons, hcq]
    · rw [List.dropWhile_cons, if_neg h]

theorem countQ_reverse (l : Str) : countQ l.reverse = countQ l :=
  List.count_reverse '?' l

theorem countQ_jsTrim (s : Str) : countQ (jsTrim s) = countQ s := by
  unfold jsTrim
  calc countQ ((((s.dropWhile isWs).reverse).dropWhile isWs).reverse)
      = countQ (((s.dropWhile isWs).reverse).dropWhile isWs) := countQ_reverse _
    _ = countQ ((s.dropWhile isWs).reverse) := countQ_dropWhile _
    _ = countQ (s.dropWhile isWs) := countQ_reverse _
    _ = countQ s := countQ_dropWhile s

theorem sum_countQ_filter (l : List Str) :
    ((l.filter (fun p => !p.isEmpty)).map countQ).sum = (l.map countQ).sum := by
  induction l with
  | nil => rfl
  | cons c t ih =>
    rw [List.filter_cons]
    by_cases hc : c.isEmpty = true
    · have hnil : c = [] := List.isEmpty_iff.mp hc
      simp [hc, ih, hnil, countQ]
    · have hcb : (!c.isEmpty) = true := by
        revert hc; cases c.isEmpty <;> simp
      simp [hcb, ih]

theorem countQ_concatParts (parts : List Str) :
    countQ (concatParts parts) = (parts.map countQ).sum := by
  unfold concatParts
  rw [countQ_joinSep [' '] (by decide), sum_countQ_filter]

/-- The SET clause of `BaseGrammar.compileUpdate` (base-grammar.js:177):
`wrap(col) = ?` for each key of the update data, comma-joined. -/
def setClauses (wrap : Str → Str) (data : List (Str × JsVal)) : Str :=
  joinSep (", ".toList) (data.map (fun kv => wrap kv.1 ++ " = ?".toList))

/-- `BaseGrammar.compileUpdate` (base-grammar.js:176-182):
`UPDATE wrap(from) SET <set clauses> <where clause>` with bindings
`[...dataValues, ...whereBindings]`. -/
def baseCompileUpdate (wrap : Str → Str) (st : Statements)
    (data : List (Str × JsVal)) (whereBindings : List JsVal) :
    Str × List JsVal :=
  ("UPDATE ".toList ++ wrap st.fromTable ++ " SET ".toList ++
     setClauses wrap data ++ ' ' :: compileWheres wrap st.whereList,
   data.map Prod.snd ++ whereBindings)

theorem countQ_setClauses (data : List (Str × JsVal))
    (hkeys : ∀ kv ∈ data, '?' ∉ baseWrap (kv : Str × JsVal).1) :
    countQ (setClauses baseWrap data) = data.length := by
  unfold setClauses
  rw [countQ_joinSep (", ".toList) (by decide)]
  have hmap : (data.map (fun kv => baseWrap kv.1 ++ " = ?".toList)).map countQ
      = data.map (fun _ => (1 : Nat)) := by
    rw [List.map_map]
    refine List.map_congr_left ?_
    intro kv hkv
    show countQ (baseWrap kv.1 ++ " = ?".toList) = 1
    rw [countQ_append, countQ_zero_of_qfree _ (hkeys kv hkv)]
    rfl
  rw [hmap, sum_map_one]

/-- C8: the binding list handed to the executor follows the fixed
protocol order — for UPDATE the update-data values (in object key
order) followed by the where-clause values, for SELECT and DELETE the
where-clause values — the statement model records no having clause, so
the having segment is always empty; the grammar's own binding list for
UPDATE agrees with the builder's, and the order matches the
left-to-right `?` placeholders of the compiled SQL: the UPDATE text
splits into a prefix ending in the SET clause holding exactly
`data.length` placeholders followed by the WHERE clause holding exactly
`whereList.length` placeholders, and the compiled SELECT holds exactly
`whereList.length` placeholders. -/
theorem c8_binding_order (st : Statements) (data : List (Str × JsVal))
    (hbw : ∀ w ∈ st.whereList, w.type_ ≠ "sub".toList ∧ w.boolean = none ∧
      '?' ∉ w.column ∧ '?' ∉ w.operator)
    (hkeys : ∀ kv ∈ data, '?' ∉ (kv : Str × JsVal).1)
    (hsel : ∀ c ∈ st.select, '?' ∉ c)
    (hfrom : '?' ∉ st.fromTable)
    (hord : ∀ o ∈ st.orderBy, '?' ∉ o.column ∧ '?' ∉ jsUpper o.direction) :
    getBindingsFor ("update".toList) data st
      = data.map Prod.snd ++ st.whereList.map WherePred.value ∧
    getBindingsFor ("select".toList) data st
      = st.whereList.map WherePred.value ∧
    getBindingsFor ("delete".toList) data st
      = st.whereList.map WherePred.value ∧
    (baseCompileUpdate baseWrap st data (st.whereList.map WherePred.value)).2
      = getBindingsFor ("update".toList) data st ∧
    (baseCompileUpdate baseWrap st data (st.whereList.map WherePred.value)).1
      = ("UPDATE ".toList ++ baseWrap st.fromTable ++ " SET ".toList ++
          setClauses baseWrap data) ++
        ' ' :: compileWheres baseWrap st.whereList ∧
    countQ ("UPDATE ".toList ++ baseWrap st.fromTable ++ " SET ".toList ++
        setClauses baseWrap data) = data.length ∧
    countQ (compileWheres baseWrap st.whereList) = st.whereList.length ∧
    countQ (pgCompileSelect st) = st.whereList.length := by
  have hwherecount : countQ (compileWheres baseWrap st.whereList)
      = st.whereList.length := by
    refine countQ_compileWheres baseWrap st.whereList ?_ ?_
    · intro w hw
      rcases hbw w hw with ⟨h1, _, h3, h4⟩
      exact ⟨h1, baseWrap_qfree _ h3, h4⟩
    · intro w hw
      exact (hbw w hw).2.1
  refine ⟨rfl, rfl, rfl, rfl, ?_, ?_, hwherecount, ?_⟩
  · simp [baseCompileUpdate, List.append_assoc]
  · rw [countQ_append, countQ_append, countQ_append]
    rw [countQ_zero_of_qfree _ (baseWrap_qfree _ hfrom)]
    rw [countQ_setClauses data (fun kv hkv => baseWrap_qfree _ (hkeys kv hkv))]
    rw [show countQ ("UPDATE ".toList) = 0 from by decide,
      show countQ (" SET ".toList) = 0 from by decide]
    simp
  · unfold pgCompileSelect
    rw [countQ_jsTrim, countQ_concatParts]
    have h1 : countQ (compileSelectCore baseWrap st.select) = 0 := by
      unfold compileSelectCore
      rw [countQ_append, countQ_joinSep (", ".toList) (by decide)]
      have : (st.select.map baseWrap).map countQ
          = st.select.map (fun _ => (0 : Nat)) := by
        rw [List.map_map]
        refine List.map_congr_left ?_
        intro c hc
        exact countQ_zero_of_qfree _ (baseWrap_qfree _ (hsel c hc))
      rw [this]
      simp [List.sum_eq_zero]
      decide
    have h2 : countQ (compileFrom baseWrap st.fromTable) = 0 := by
      unfold compileFrom
      rw [countQ_append, countQ_zero_of_qfree _ (baseWrap_qfree _ hfrom)]
      rfl
    have h3 : countQ (compileOrderBy baseWrap st.orderBy) = 0 := by
      unfold compileOrderBy
      by_cases ho : st.orderBy = []
      · rw [if_pos ho]; rfl
      · rw [if_neg ho]
        rw [countQ_append, countQ_joinSep (", ".toList) (by decide)]
        have : (st.orderBy.map
            (fun o => baseWrap o.column ++ ' ' :: jsUpper o.direction)).map countQ
            = st.orderBy.map (fun _ => (0 : Nat)) := by
          rw [List.map_map]
          refine List.map_congr_left ?_
          intro o hoo
          show countQ (baseWrap o.column ++ ' ' :: jsUpper o.direction) = 0
          rw [countQ_append,
            countQ_zero_of_qfree _ (baseWrap_qfree _ (hord o hoo).1)]
          have : countQ (' ' :: jsUpper o.direction)
              = countQ (jsUpper o.direction) := by
            simp [countQ, List.count_cons]
          rw [this, countQ_zero_of_qfree _ (hord o hoo).2]
        rw [this]
        simp [List.sum_eq_zero]
        decide
    have h4 : countQ (pgLimit st.limit) = 0 := by
      cases st.limit with
      | none => rfl
      | some n =>
        simp only [pgLimit]
        by_cases hn : n = 0
        · rw [if_pos hn]; rfl
        · rw [if_neg hn, countQ_append,
            countQ_zero_of_qfree _ (natStr_qfree n)]
          decide
    have h5 : countQ (pgOffset st.offset) = 0 := by
      cases st.offset with
      | none => rfl
      | some n =>
        simp only [pgOffset]
        by_cases hn : n = 0
        · rw [if_pos hn]; rfl
        · rw [if_neg hn, countQ_append,
            countQ_zero_of_qfree _ (natStr_qfree n)]
          decide
    simp [h1, h2, h3, h4, h5, hwherecount]

/-- Concrete update data and statement model for the C8 witness. -/
def c8Data : List (Str × JsVal) :=
  [("name".toList, JsVal.s ("ana".toList)), ("age".toList, JsVal.n 30)]

theorem c8_binding_order_witness :
    (∀ w ∈ c1Statements.whereList, w.type_ ≠ "sub".toList ∧ w.boolean = none ∧
      '?' ∉ w.column ∧ '?' ∉ w.operator) ∧
    (∀ kv ∈ c8Data, '?' ∉ (kv : Str × JsVal).1) ∧
    (getBindingsFor ("update".toList) c8Data c1Statements
      = c8Data.map Prod.snd ++ c1Statements.whereList.map WherePred.value ∧
     getBindingsFor ("select".toList) c8Data c1Statements
      = c1Statements.whereList.map WherePred.value ∧
     getBindingsFor ("delete".toList) c8Data c1Statements
      = c1Statements.whereList.map WherePred.value ∧
     (baseCompileUpdate baseWrap c1Statements c8Data
        (c1Statements.whereList.map WherePred.value)).2
      = getBindingsFor ("update".toList) c8Data c1Statements ∧
     (baseCompileUpdate baseWrap c1Statements c8Data
        (c1Statements.whereList.map WherePred.value)).1
      = ("UPDATE ".toList ++ baseWrap c1Statements.fromTable ++ " SET ".toList ++
          setClauses baseWrap c8Data) ++
        ' ' :: compileWheres baseWrap c1Statements.whereList ∧
     countQ ("UPDATE ".toList ++ baseWrap c1Statements.fromTable ++
        " SET ".toList ++ setClauses baseWrap c8Data) = c8Data.length ∧
     countQ (compileWheres baseWrap c1Statements.whereList)
      = c1Statements.whereList.length ∧
     countQ (pgCompileSelect c1Statements) = c1Statements.whereList.length) :=
  ⟨by decide, by decide,
   c8_binding_order c1Statements c8Data (by decide) (by decide) (by decide)
     (by decide) (by decide)⟩

end EasyDbg
